import Mathlib

/-!
Verification of the bank-transaction synchronization engine of the
`regnskap` repository (backend/app/bank_integration and
backend/app/transaction_chaining.py), as a shallow embedding in Lean 4.

Modelling conventions, used uniformly below:
* Python strings are lists of Unicode code points (`List Nat`).
* Dates (`datetime.date`) are integer day numbers (`Int`); `timedelta(days=k)`
  is integer subtraction/addition, and `date.isoformat()` is modelled by an
  injective decimal rendering of the day number.
* `Decimal` money amounts are integers of cents (`Int`); every amount handled
  by this subsystem has two decimal places, so the rendering `f"{amount:.2f}"`
  is exact on this domain.
* The MD5 digest used by the deduplication fingerprint is a deterministic
  function of its input string; we model the digest by the normalized
  pre-image string itself.  Equal pre-images give equal MD5 digests, so every
  equality-based property proved here transfers to the real digest
  (inequality transfers barring MD5 collisions, which the spec itself
  excludes).
-/

/-- Code points of a Lean string literal, used to write concrete Python
strings in the model. -/
def str2nat (s : String) : List Nat := s.data.map Char.toNat

/-- Python `str.lower` restricted to ASCII, code-point-wise
(`'A'..'Z'` map to `'a'..'z'`, everything else is fixed). -/
def pyLower (c : Nat) : Nat := if 65 ≤ c ∧ c ≤ 90 then c + 32 else c

/-- The default whitespace characters removed by Python `str.strip()`:
space, tab, newline, carriage return, vertical tab, form feed. -/
def isSpaceB (c : Nat) : Bool :=
  decide (c = 32 ∨ c = 9 ∨ c = 10 ∨ c = 13 ∨ c = 11 ∨ c = 12)

/-- Python `str.strip()`: drop leading and trailing whitespace. -/
def pyStrip (s : List Nat) : List Nat :=
  ((s.dropWhile isSpaceB).reverse.dropWhile isSpaceB).reverse

/-- `s.strip().lower()[:n]` — the text normalization used by
`TransactionDeduplicator.generate_hash` (deduplication.py lines 64-65),
with `n = 200` for descriptions and `n = 100` for references. -/
def normText (n : Nat) (s : List Nat) : List Nat :=
  ((pyStrip s).map pyLower).take n

/-- `f"{amount:.2f}"` on an amount given in cents: optional minus sign,
integer part, a dot, and exactly two fractional digits. -/
def fmtAmount (a : Int) : List Nat :=
  let n := a.natAbs
  (if a < 0 then [45] else []) ++
    str2nat (toString (n / 100)) ++ [46] ++ [48 + (n / 10) % 10, 48 + n % 10]

/-- `date.isoformat()` modelled as an injective decimal rendering of the
day number. -/
def dateIso (d : Int) : List Nat := str2nat (toString d)

/-- `TransactionDeduplicator.generate_hash` (deduplication.py lines 30-71):
normalize the four attributes and join them with the `'|'` delimiter
(code point 124).  The MD5 digest of this string is modelled by the string
itself (see the file header). -/
def generate_hash (transaction_date : Int) (amount : Int)
    (description : List Nat) (reference : Option (List Nat)) : List Nat :=
  dateIso transaction_date ++ 124 :: fmtAmount amount ++
    124 :: normText 200 description ++ 124 :: normText 100 (reference.getD [])

example : normText 200 (str2nat "  Coffee Shop ") = str2nat "coffee shop" := by
  decide

example :
    generate_hash 20240115 12345 (str2nat "Coffee Shop") (some (str2nat "REF123"))
      = str2nat "20240115|123.45|coffee shop|ref123" := by decide

/-- Lowercasing does not change whether a code point is whitespace. -/
theorem isSpaceB_pyLower (c : Nat) : isSpaceB (pyLower c) = isSpaceB c := by
  unfold pyLower isSpaceB
  split
  · rename_i h
    apply decide_eq_decide.mpr
    omega
  · rfl

/-- ASCII lowercasing is idempotent code-point-wise. -/
theorem pyLower_idem (c : Nat) : pyLower (pyLower c) = pyLower c := by
  unfold pyLower
  split
  · rename_i h
    rw [if_neg]
    omega
  · rfl

/-- Dropping a `p`-true block appended in front of a list. -/
theorem dropWhile_append_all (p : Nat → Bool) (w l : List Nat)
    (hw : ∀ c ∈ w, p c = true) : (w ++ l).dropWhile p = l.dropWhile p := by
  induction w with
  | nil => rfl
  | cons c w ih =>
      simp only [List.cons_append, List.dropWhile_cons, hw c (List.mem_cons_self c w),
        if_pos]
      exact ih fun x hx => hw x (List.mem_cons_of_mem c hx)

/-- A list of whitespace strips to the empty list. -/
theorem dropWhile_all_space (p : Nat → Bool) (w : List Nat)
    (hw : ∀ c ∈ w, p c = true) : w.dropWhile p = [] := by
  have := dropWhile_append_all p w [] hw
  simpa using this

/-- `strip` commutes with code-point-wise lowercasing. -/
theorem pyStrip_map_pyLower (s : List Nat) :
    pyStrip (s.map pyLower) = (pyStrip s).map pyLower := by
  have hfun : (isSpaceB ∘ pyLower) = isSpaceB := funext isSpaceB_pyLower
  unfold pyStrip
  rw [List.dropWhile_map, hfun, ← List.map_reverse, List.dropWhile_map, hfun,
    ← List.map_reverse]

/-- `strip` ignores surrounding whitespace. -/
theorem pyStrip_pad (s w1 w2 : List Nat)
    (h1 : ∀ c ∈ w1, isSpaceB c = true) (h2 : ∀ c ∈ w2, isSpaceB c = true) :
    pyStrip (w1 ++ s ++ w2) = pyStrip s := by
  unfold pyStrip
  rw [List.append_assoc, dropWhile_append_all _ _ _ h1, List.dropWhile_append]
  by_cases hs : (s.dropWhile isSpaceB).isEmpty
  · rw [if_pos hs]
    rw [List.isEmpty_iff] at hs
    rw [hs, dropWhile_all_space _ _ h2]
  · rw [if_neg hs, List.reverse_append,
      dropWhile_append_all _ _ _ (by intro c hc; exact h2 c (List.mem_reverse.mp hc))]

/-- Text normalization is determined by the case-folded text. -/
theorem normText_lower_congr (n : Nat) (s1 s2 : List Nat)
    (h : s1.map pyLower = s2.map pyLower) : normText n s1 = normText n s2 := by
  unfold normText
  rw [← pyStrip_map_pyLower, ← pyStrip_map_pyLower, h]

/-- Text normalization ignores surrounding whitespace. -/
theorem normText_pad (n : Nat) (s w1 w2 : List Nat)
    (h1 : ∀ c ∈ w1, isSpaceB c = true) (h2 : ∀ c ∈ w2, isSpaceB c = true) :
    normText n (w1 ++ s ++ w2) = normText n s := by
  unfold normText
  rw [pyStrip_pad s w1 w2 h1 h2]

/-- C2: the deduplication fingerprint is a pure deterministic function of its
arguments — identical normalized inputs yield identical output — and it is
case-insensitive and (surrounding-)whitespace-insensitive on description and
reference; normalization renders the amount with exactly 2 decimal places
(a dot followed by two digit code points at the end), lowercases and
truncates the description to 200 characters and the reference to 100
characters, and joins the fields with the fixed `'|'` delimiter. -/
theorem generate_hash_normalization_spec :
    (∀ d a x1 x2 r1 r2, normText 200 x1 = normText 200 x2 →
        normText 100 (Option.getD r1 []) = normText 100 (Option.getD r2 []) →
        generate_hash d a x1 r1 = generate_hash d a x2 r2)
  ∧ (∀ d a x1 x2 (r : Option (List Nat)), x1.map pyLower = x2.map pyLower →
        generate_hash d a x1 r = generate_hash d a x2 r)
  ∧ (∀ d a x r1 r2, r1.map pyLower = r2.map pyLower →
        generate_hash d a x (some r1) = generate_hash d a x (some r2))
  ∧ (∀ d a x r w1 w2, (∀ c ∈ w1, isSpaceB c = true) → (∀ c ∈ w2, isSpaceB c = true) →
        generate_hash d a (w1 ++ x ++ w2) r = generate_hash d a x r)
  ∧ (∀ d a x r w1 w2, (∀ c ∈ w1, isSpaceB c = true) → (∀ c ∈ w2, isSpaceB c = true) →
        generate_hash d a x (some (w1 ++ r ++ w2)) = generate_hash d a x (some r))
  ∧ (∀ d a x r, generate_hash d a x r =
      dateIso d ++ 124 :: fmtAmount a ++ 124 :: normText 200 x ++
        124 :: normText 100 (Option.getD r []))
  ∧ (∀ a : Int, ∃ pre t o, fmtAmount a = pre ++ [46, t, o] ∧
      48 ≤ t ∧ t ≤ 57 ∧ 48 ≤ o ∧ o ≤ 57) := by
  refine ⟨?_, ?_, ?_, ?_, ?_, fun _ _ _ _ => rfl, ?_⟩
  · intro d a x1 x2 r1 r2 hx hr
    unfold generate_hash
    rw [hx, hr]
  · intro d a x1 x2 r h
    unfold generate_hash
    rw [normText_lower_congr 200 x1 x2 h]
  · intro d a x r1 r2 h
    unfold generate_hash
    simp only [Option.getD_some]
    rw [normText_lower_congr 100 r1 r2 h]
  · intro d a x r w1 w2 h1 h2
    unfold generate_hash
    rw [normText_pad 200 x w1 w2 h1 h2]
  · intro d a x r w1 w2 h1 h2
    unfold generate_hash
    simp only [Option.getD_some]
    rw [normText_pad 100 r w1 w2 h1 h2]
  · intro a
    refine ⟨(if a < 0 then [45] else []) ++ str2nat (toString (a.natAbs / 100)),
      48 + (a.natAbs / 10) % 10, 48 + a.natAbs % 10, ?_, ?_, ?_, ?_, ?_⟩
    · unfold fmtAmount
      simp
    · omega
    · have : (a.natAbs / 10) % 10 < 10 := Nat.mod_lt _ (by omega)
      omega
    · omega
    · have : a.natAbs % 10 < 10 := Nat.mod_lt _ (by omega)
      omega

/-- Concrete instantiation of the fingerprint-normalization theorem:
`"  COFFEE Shop "` and `"coffee shop"` carry the same fingerprint. -/
theorem generate_hash_normalization_spec_witness :
    normText 200 (str2nat "  COFFEE Shop ") = normText 200 (str2nat "coffee shop") ∧
    normText 100 (Option.getD none []) = normText 100 (Option.getD none []) ∧
    generate_hash 20240115 12345 (str2nat "  COFFEE Shop ") none
      = generate_hash 20240115 12345 (str2nat "coffee shop") none :=
  ⟨by decide, rfl,
    generate_hash_normalization_spec.1 20240115 12345 _ _ none none (by decide) rfl⟩

/-! ## Ledger data model (backend/app/models.py), restricted to the fields
the bank-integration subsystem reads or writes. -/

inductive TransactionStatus
  | DRAFT
  | POSTED
  | RECONCILED
deriving DecidableEq, Repr

inductive TransactionSource
  | MANUAL
  | CSV_IMPORT
  | BANK_SYNC
deriving DecidableEq, Repr

inductive AccountType
  | ASSET
  | LIABILITY
  | EQUITY
  | REVENUE
  | EXPENSE
deriving DecidableEq, Repr

inductive BankConnectionStatus
  | ACTIVE
  | EXPIRED
  | DISCONNECTED
  | ERROR
deriving DecidableEq, Repr

inductive BankSyncStatus
  | SUCCESS
  | PARTIAL
  | FAILED
deriving DecidableEq, Repr

/-- `BankTransactionImportStatus` of models.py (the field name is spelled
`ingest_status` below). -/
inductive IngestStatus
  | PENDING
  | IMPORTED
  | DUPLICATE
  | IGNORED
deriving DecidableEq, Repr

structure JournalEntry where
  id : Int
  transaction_id : Int
  account_id : Int
  debit : Int
  credit : Int
  description : List Nat
deriving DecidableEq, Repr

/-- A ledger transaction together with its journal entries (the ORM
relationship `Transaction.journal_entries`, eagerly loaded). -/
structure Transaction where
  id : Int
  ledger_id : Int
  transaction_date : Int
  description : List Nat
  reference : Option (List Nat)
  status : TransactionStatus
  source : TransactionSource
  source_reference : Option (List Nat)
  journal_entries : List JournalEntry
deriving DecidableEq, Repr

/-- Python `abs` on an integer amount of cents. -/
def pyAbs (a : Int) : Int := if a < 0 then -a else a

/-- The SQL filter of `TransactionDeduplicator.find_duplicate_transaction`
(deduplication.py lines 118-132): same ledger, a journal entry on the
bank's GL account whose debit or credit equals `abs(amount)`, and a
transaction date inside `[date_from, date_to]`. -/
def duplicate_candidate (ledger_id bank_account_id : Int)
    (date_from date_to : Int) (amount : Int) (tx : Transaction) : Bool :=
  decide (tx.ledger_id = ledger_id) &&
  tx.journal_entries.any (fun e =>
    decide (e.account_id = bank_account_id) &&
    (decide (e.debit = pyAbs amount) || decide (e.credit = pyAbs amount))) &&
  decide (date_from ≤ tx.transaction_date) &&
  decide (tx.transaction_date ≤ date_to)

/-- `TransactionDeduplicator.find_duplicate_transaction`
(deduplication.py lines 73-148).  The database is the list of the ledger
system's transactions; the loop over candidates recomputes the fingerprint
with the candidate's date, description and reference but the *given*
amount, and returns the first exact match. -/
def find_duplicate_transaction (transactions : List Transaction)
    (ledger_id bank_account_id : Int) (dedup_hash : List Nat)
    (transaction_date : Int) (amount : Int) : Option Transaction :=
  let date_from := transaction_date - 3
  let date_to := transaction_date + 3
  let candidates := transactions.filter
    (duplicate_candidate ledger_id bank_account_id date_from date_to amount)
  candidates.find? (fun tx =>
    decide (generate_hash tx.transaction_date amount tx.description tx.reference
      = dedup_hash))

/-- The full per-candidate condition of the duplicate lookup, as one
proposition. -/
def DuplicateCondition (ledger_id bank_account_id : Int) (dedup_hash : List Nat)
    (transaction_date : Int) (amount : Int) (tx : Transaction) : Prop :=
  tx.ledger_id = ledger_id ∧
  (∃ e ∈ tx.journal_entries, e.account_id = bank_account_id ∧
      (e.debit = pyAbs amount ∨ e.credit = pyAbs amount)) ∧
  transaction_date - 3 ≤ tx.transaction_date ∧
  tx.transaction_date ≤ transaction_date + 3 ∧
  generate_hash tx.transaction_date amount tx.description tx.reference = dedup_hash

/-- C1: the duplicate-ledger-transaction lookup returns a transaction only
if it is in the same ledger, has a journal entry on the given GL account
with debit or credit equal to `abs(amount)`, has a transaction date within
±3 days of the given date, and its recomputed fingerprint equals the given
hash exactly; if no transaction satisfies all of these conditions the
lookup returns `none`. -/
theorem find_duplicate_transaction_spec :
    (∀ txs L B h d a tx, find_duplicate_transaction txs L B h d a = some tx →
        DuplicateCondition L B h d a tx)
  ∧ (∀ txs L B h d a, (∀ tx ∈ txs, ¬ DuplicateCondition L B h d a tx) →
        find_duplicate_transaction txs L B h d a = none) := by
  constructor
  · intro txs L B h d a tx hfind
    unfold find_duplicate_transaction at hfind
    have hmem := List.mem_of_find?_eq_some hfind
    have hhash := List.find?_some hfind
    rw [List.mem_filter] at hmem
    have hcand := hmem.2
    unfold duplicate_candidate at hcand
    simp only [Bool.and_eq_true, Bool.or_eq_true, List.any_eq_true,
      decide_eq_true_eq] at hcand hhash
    exact ⟨hcand.1.1.1, hcand.1.1.2, hcand.1.2, hcand.2, hhash⟩
  · intro txs L B h d a hnone
    unfold find_duplicate_transaction
    rw [List.find?_eq_none]
    intro tx hmem
    rw [List.mem_filter] at hmem
    unfold duplicate_candidate at hmem
    simp only [Bool.and_eq_true, Bool.or_eq_true, List.any_eq_true,
      decide_eq_true_eq] at hmem ⊢
    intro hhash
    exact hnone tx hmem.1
      ⟨hmem.2.1.1.1, hmem.2.1.1.2, hmem.2.1.2, hmem.2.2, hhash⟩

/-- A concrete posted transaction on GL account 5 within the window is
found by the lookup, and the located transaction meets every condition of
the claim. -/
theorem find_duplicate_transaction_spec_witness :
    find_duplicate_transaction
        [⟨7, 1, 11, str2nat "coffee", none, .POSTED, .MANUAL, none,
          [⟨1, 7, 5, 100, 0, []⟩]⟩]
        1 5 (generate_hash 11 100 (str2nat "coffee") none) 10 100
      = some ⟨7, 1, 11, str2nat "coffee", none, .POSTED, .MANUAL, none,
          [⟨1, 7, 5, 100, 0, []⟩]⟩ ∧
    DuplicateCondition 1 5 (generate_hash 11 100 (str2nat "coffee") none) 10 100
      ⟨7, 1, 11, str2nat "coffee", none, .POSTED, .MANUAL, none,
        [⟨1, 7, 5, 100, 0, []⟩]⟩ := by
  have hfind : find_duplicate_transaction
      [⟨7, 1, 11, str2nat "coffee", none, .POSTED, .MANUAL, none,
        [⟨1, 7, 5, 100, 0, []⟩]⟩]
      1 5 (generate_hash 11 100 (str2nat "coffee") none) 10 100
    = some ⟨7, 1, 11, str2nat "coffee", none, .POSTED, .MANUAL, none,
        [⟨1, 7, 5, 100, 0, []⟩]⟩ := by decide
  exact ⟨hfind, find_duplicate_transaction_spec.1 _ 1 5 _ 10 100 _ hfind⟩

/-! ## Sync date window (service.py lines 585-601) -/

/-- The `from_date` computation of `sync_transactions`: an explicitly
supplied date wins; otherwise an ongoing sync (a previous successful sync
exists) uses `max(last_successful_sync_at.date() - 1 day, today - 89 days)`,
and an initial sync uses the connection's configured
`initial_sync_from_date` (possibly absent). -/
def compute_from_date (from0 : Option Int)
    (last_successful_sync_at : Option Int)
    (initial_sync_from_date : Option Int) (today : Int) : Option Int :=
  match from0 with
  | some f => some f
  | none =>
    match last_successful_sync_at with
    | some l => some (max (l - 1) (today - 89))
    | none => initial_sync_from_date

/-- The `to_date` computation of `sync_transactions`: the supplied date, or
`date.today()`. -/
def compute_to_date (to0 : Option Int) (today : Int) : Int :=
  to0.getD today

/-- C3: for an ongoing sync with no caller-supplied `from_date`, the window
is `from_date = max(last_success − 1, today − 89)` and `to_date = today`;
with `last_success` 120 days in the past `from_date` is exactly
`today − 89`, and it is never earlier than `today − 89`. -/
theorem ongoing_sync_window_spec :
    (∀ last initF today, compute_from_date none (some last) initF today
        = some (max (last - 1) (today - 89)))
  ∧ (∀ today, compute_to_date none today = today)
  ∧ (∀ last initF today, last = today - 120 →
        compute_from_date none (some last) initF today = some (today - 89))
  ∧ (∀ last initF today f,
        compute_from_date none (some last) initF today = some f →
        today - 89 ≤ f) := by
  refine ⟨fun _ _ _ => rfl, fun _ => rfl, ?_, ?_⟩
  · intro last initF today hlast
    subst hlast
    show some (max (today - 120 - 1) (today - 89)) = some (today - 89)
    rw [max_eq_right (by omega)]
  · intro last initF today f hf
    unfold compute_from_date at hf
    have : f = max (last - 1) (today - 89) := by
      simpa using hf.symm
    have h89 : today - 89 ≤ max (last - 1) (today - 89) := le_max_right _ _
    omega

/-- Concrete instantiation of the window theorem: `today = 1000`,
last success 120 days ago. -/
theorem ongoing_sync_window_spec_witness :
    compute_from_date none (some 880) none 1000 = some (1000 - 89) :=
  ongoing_sync_window_spec.2.2.1 880 none 1000 (by decide)

/-! ## Draft transaction builder
(`BankIntegrationService._import_as_draft_transaction`,
service.py lines 785-868) -/

/-- A `BankAccount` joined with its linked GL `Account`: the service only
reads the GL account's id and `account_type`. -/
structure BankAccount where
  id : Int
  ledger_id : Int
  account_id : Int
  account_type : AccountType
deriving DecidableEq, Repr

/-- One normalized provider transaction (the dict produced by
`_normalize_transactions`). -/
structure RawTx where
  external_id : List Nat
  date : Option Int
  booking_date : Option Int
  value_date : Option Int
  amount : Int
  currency : List Nat
  description : List Nat
  reference : Option (List Nat)
  merchant_name : Option (List Nat)
  raw_data : List Nat
deriving DecidableEq, Repr

/-- `_import_as_draft_transaction` (service.py lines 785-868): build one
DRAFT, BANK_SYNC-sourced transaction with exactly one journal entry on the
connection's GL account.  ASSET account: positive amount → debit, negative →
credit; LIABILITY account: the signs swap.  `tx_id`/`entry_id` stand for the
primary keys the database assigns on flush.  The function is only called on
transactions that passed the no-date skip, so `raw_tx.date` is present;
`getD 0` renders the (unreachable) missing-date case. -/
def import_as_draft_transaction (ledger_id : Int) (bank_account : BankAccount)
    (raw_tx : RawTx) (tx_id entry_id : Int) : Transaction :=
  let tdesc := if raw_tx.description = [] then str2nat "Bank transaction"
               else raw_tx.description
  let amount := raw_tx.amount
  let journal_entry : JournalEntry :=
    if bank_account.account_type = AccountType.LIABILITY then
      if amount > 0 then
        ⟨entry_id, tx_id, bank_account.account_id, 0, pyAbs amount,
          raw_tx.description⟩
      else
        ⟨entry_id, tx_id, bank_account.account_id, pyAbs amount, 0,
          raw_tx.description⟩
    else
      if amount > 0 then
        ⟨entry_id, tx_id, bank_account.account_id, pyAbs amount, 0,
          raw_tx.description⟩
      else
        ⟨entry_id, tx_id, bank_account.account_id, 0, pyAbs amount,
          raw_tx.description⟩
  { id := tx_id
    ledger_id := ledger_id
    transaction_date := raw_tx.date.getD 0
    description := tdesc
    reference := raw_tx.reference
    status := TransactionStatus.DRAFT
    source := TransactionSource.BANK_SYNC
    source_reference := some raw_tx.external_id
    journal_entries := [journal_entry] }

/-- C6: every imported draft has status DRAFT and exactly one journal entry
on the connection's GL account, with debit/credit assigned by the sign
policy: ASSET/positive → debit = |amount|, ASSET/negative → credit =
|amount|, LIABILITY/positive → credit = |amount|, LIABILITY/negative →
debit = |amount| (the other side 0 in each case). -/
theorem import_as_draft_transaction_spec :
    ∀ L ba raw txid eid,
      (import_as_draft_transaction L ba raw txid eid).status
        = TransactionStatus.DRAFT ∧
      (import_as_draft_transaction L ba raw txid eid).source
        = TransactionSource.BANK_SYNC ∧
      ∃ e, (import_as_draft_transaction L ba raw txid eid).journal_entries
          = [e] ∧ e.account_id = ba.account_id ∧
        (ba.account_type = AccountType.ASSET → 0 < raw.amount →
            e.debit = pyAbs raw.amount ∧ e.credit = 0) ∧
        (ba.account_type = AccountType.ASSET → raw.amount < 0 →
            e.debit = 0 ∧ e.credit = pyAbs raw.amount) ∧
        (ba.account_type = AccountType.LIABILITY → 0 < raw.amount →
            e.credit = pyAbs raw.amount ∧ e.debit = 0) ∧
        (ba.account_type = AccountType.LIABILITY → raw.amount < 0 →
            e.debit = pyAbs raw.amount ∧ e.credit = 0) := by
  intro L ba raw txid eid
  refine ⟨rfl, rfl, ?_⟩
  by_cases hliab : ba.account_type = AccountType.LIABILITY
  · by_cases hpos : 0 < raw.amount
    · refine ⟨⟨eid, txid, ba.account_id, 0, pyAbs raw.amount, raw.description⟩,
        ?_, rfl, ?_, ?_, ?_, ?_⟩
      · simp only [import_as_draft_transaction]
        rw [if_pos hliab, if_pos hpos]
      all_goals intro h1 h2
      · rw [h1] at hliab; cases hliab
      · rw [h1] at hliab; cases hliab
      · exact ⟨rfl, rfl⟩
      · omega
    · refine ⟨⟨eid, txid, ba.account_id, pyAbs raw.amount, 0, raw.description⟩,
        ?_, rfl, ?_, ?_, ?_, ?_⟩
      · simp only [import_as_draft_transaction]
        rw [if_pos hliab, if_neg hpos]
      all_goals intro h1 h2
      · rw [h1] at hliab; cases hliab
      · rw [h1] at hliab; cases hliab
      · omega
      · exact ⟨rfl, rfl⟩
  · by_cases hpos : 0 < raw.amount
    · refine ⟨⟨eid, txid, ba.account_id, pyAbs raw.amount, 0, raw.description⟩,
        ?_, rfl, ?_, ?_, ?_, ?_⟩
      · simp only [import_as_draft_transaction]
        rw [if_neg hliab, if_pos hpos]
      all_goals intro h1 h2
      · exact ⟨rfl, rfl⟩
      · omega
      · exact absurd h1 hliab
      · exact absurd h1 hliab
    · refine ⟨⟨eid, txid, ba.account_id, 0, pyAbs raw.amount, raw.description⟩,
        ?_, rfl, ?_, ?_, ?_, ?_⟩
      · simp only [import_as_draft_transaction]
        rw [if_neg hliab, if_neg hpos]
      all_goals intro h1 h2
      · omega
      · exact ⟨rfl, rfl⟩
      · exact absurd h1 hliab
      · exact absurd h1 hliab

/-- Concrete instantiation of the draft-builder theorem: an ASSET account
and amount +150.00 produce the entry {debit 150.00, credit 0.00}. -/
theorem import_as_draft_transaction_spec_witness :
    (import_as_draft_transaction 1 ⟨3, 1, 5, AccountType.ASSET⟩
        ⟨str2nat "T1", some 10, none, none, 15000, str2nat "NOK",
          str2nat "Pay", none, none, []⟩ 21 31).status
      = TransactionStatus.DRAFT ∧
    ∃ e, (import_as_draft_transaction 1 ⟨3, 1, 5, AccountType.ASSET⟩
        ⟨str2nat "T1", some 10, none, none, 15000, str2nat "NOK",
          str2nat "Pay", none, none, []⟩ 21 31).journal_entries = [e] ∧
      e.debit = 15000 ∧ e.credit = 0 := by
  have h := import_as_draft_transaction_spec 1 ⟨3, 1, 5, AccountType.ASSET⟩
    ⟨str2nat "T1", some 10, none, none, 15000, str2nat "NOK",
      str2nat "Pay", none, none, []⟩ 21 31
  obtain ⟨hst, _, e, hentries, _, hcase, _, _, _⟩ := h
  refine ⟨hst, e, hentries, ?_, ?_⟩
  · exact ((hcase rfl (by decide)).1).trans (by decide)
  · exact (hcase rfl (by decide)).2

/-! ## Connection lifecycle: sibling session propagation
(`BankIntegrationService.create_connection_from_selection`,
service.py lines 381-425) -/

/-- The fields of a `BankConnection` row read or written by the
bank-integration subsystem (models.py lines 509-549). -/
structure BankConnection where
  id : Int
  ledger_id : Int
  bank_account_id : Int
  provider_id : Int
  external_bank_id : Option (List Nat)
  external_account_id : List Nat
  external_account_name : Option (List Nat)
  external_account_iban : Option (List Nat)
  access_token : Option (List Nat)
  refresh_token : Option (List Nat)
  token_expires_at : Option Int
  status : BankConnectionStatus
  connection_error : Option (List Nat)
  last_sync_at : Option Int
  last_successful_sync_at : Option Int
  initial_sync_from_date : Option Int
deriving DecidableEq, Repr

/-- One entry of the candidate-account list cached on the OAuth state
(the dicts produced by `_normalize_accounts`): the volatile per-session
account uid, a display name, and the stable IBAN/BBAN anchor. -/
structure CandidateAccount where
  account_id : List Nat
  account_name : List Nat
  iban : Option (List Nat)
  bban : Option (List Nat)
deriving DecidableEq, Repr

/-- The sibling filter of the propagation block (service.py lines 388-394):
same ledger, same provider, same external bank id as the authorization
being completed, a different connection, and not DISCONNECTED. -/
def is_sibling (ledger_id provider_id : Int) (external_bank_id : Option (List Nat))
    (new_connection_id : Int) (c : BankConnection) : Bool :=
  decide (c.ledger_id = ledger_id) &&
  decide (c.provider_id = provider_id) &&
  decide (c.external_bank_id = external_bank_id) &&
  decide (c.id ≠ new_connection_id) &&
  decide (c.status ≠ BankConnectionStatus.DISCONNECTED)

/-- First step of the per-sibling update (service.py lines 400-403):
store the encrypted new session credential and the expiry estimate.
`enc` is the credential cipher's `encrypt`. -/
def store_session_tokens (enc : List Nat → List Nat) (access_token : List Nat)
    (refresh_token : Option (List Nat)) (new_expiry : Int)
    (c : BankConnection) : BankConnection :=
  { c with
    access_token := some (enc access_token)
    refresh_token := refresh_token.map enc
    token_expires_at := some new_expiry }

/-- Second step of the per-sibling update (service.py lines 405-417):
when the sibling has a stored IBAN/BBAN, look for the first candidate
account whose IBAN (or, failing that, BBAN) equals it and, if its uid
differs from the stored volatile uid, adopt the new uid and name.
Absent strings are modelled as `none`. -/
def reconcile_sibling_uid (accounts : List CandidateAccount)
    (c : BankConnection) : BankConnection :=
  match c.external_account_iban with
  | none => c
  | some target =>
    match accounts.find? (fun acc =>
        decide ((acc.iban.orElse fun _ => acc.bban) = some target)) with
    | none => c
    | some acc =>
      if acc.account_id ≠ c.external_account_id then
        { c with
          external_account_id := acc.account_id
          external_account_name := some acc.account_name }
      else c

/-- Third step of the per-sibling update (service.py lines 419-423):
reset an ERROR sibling back to ACTIVE and clear its error. -/
def reset_sibling_error (c : BankConnection) : BankConnection :=
  if c.status = BankConnectionStatus.ERROR then
    { c with
      status := BankConnectionStatus.ACTIVE
      connection_error := none }
  else c

/-- The complete per-sibling update of the propagation loop
(service.py lines 399-423). -/
def update_sibling (enc : List Nat → List Nat) (access_token : List Nat)
    (refresh_token : Option (List Nat)) (new_expiry : Int)
    (accounts : List CandidateAccount) (c : BankConnection) : BankConnection :=
  reset_sibling_error
    (reconcile_sibling_uid accounts
      (store_session_tokens enc access_token refresh_token new_expiry c))

/-- The uid reconciliation touches only the volatile uid and name. -/
theorem reconcile_sibling_uid_fields (accounts : List CandidateAccount)
    (c : BankConnection) :
    (reconcile_sibling_uid accounts c).access_token = c.access_token ∧
    (reconcile_sibling_uid accounts c).refresh_token = c.refresh_token ∧
    (reconcile_sibling_uid accounts c).token_expires_at = c.token_expires_at ∧
    (reconcile_sibling_uid accounts c).status = c.status ∧
    (reconcile_sibling_uid accounts c).connection_error = c.connection_error ∧
    (reconcile_sibling_uid accounts c).id = c.id ∧
    (reconcile_sibling_uid accounts c).ledger_id = c.ledger_id ∧
    (reconcile_sibling_uid accounts c).provider_id = c.provider_id ∧
    (reconcile_sibling_uid accounts c).external_bank_id = c.external_bank_id ∧
    (reconcile_sibling_uid accounts c).bank_account_id = c.bank_account_id := by
  unfold reconcile_sibling_uid
  repeat' split
  all_goals exact ⟨rfl, rfl, rfl, rfl, rfl, rfl, rfl, rfl, rfl, rfl⟩

/-- Field-level description of the complete per-sibling update. -/
theorem update_sibling_fields (enc : List Nat → List Nat) (tok : List Nat)
    (rtok : Option (List Nat)) (exp : Int) (accounts : List CandidateAccount)
    (c : BankConnection) :
    (update_sibling enc tok rtok exp accounts c).access_token = some (enc tok) ∧
    (update_sibling enc tok rtok exp accounts c).refresh_token = rtok.map enc ∧
    (update_sibling enc tok rtok exp accounts c).token_expires_at = some exp ∧
    (update_sibling enc tok rtok exp accounts c).status =
      (if c.status = BankConnectionStatus.ERROR then BankConnectionStatus.ACTIVE
       else c.status) ∧
    (update_sibling enc tok rtok exp accounts c).connection_error =
      (if c.status = BankConnectionStatus.ERROR then none
       else c.connection_error) ∧
    (update_sibling enc tok rtok exp accounts c).id = c.id ∧
    (update_sibling enc tok rtok exp accounts c).ledger_id = c.ledger_id ∧
    (update_sibling enc tok rtok exp accounts c).provider_id = c.provider_id ∧
    (update_sibling enc tok rtok exp accounts c).external_bank_id
      = c.external_bank_id ∧
    (update_sibling enc tok rtok exp accounts c).bank_account_id
      = c.bank_account_id := by
  have h := reconcile_sibling_uid_fields accounts
    (store_session_tokens enc tok rtok exp c)
  unfold update_sibling reset_sibling_error
  rw [h.2.2.2.1]
  by_cases herr : c.status = BankConnectionStatus.ERROR
  · rw [show (store_session_tokens enc tok rtok exp c).status = c.status from rfl,
      if_pos herr, if_pos herr, if_pos herr]
    exact ⟨h.1, h.2.1, h.2.2.1, rfl, rfl, h.2.2.2.2.2.1, h.2.2.2.2.2.2.1,
      h.2.2.2.2.2.2.2.1, h.2.2.2.2.2.2.2.2.1, h.2.2.2.2.2.2.2.2.2⟩
  · rw [show (store_session_tokens enc tok rtok exp c).status = c.status from rfl,
      if_neg herr, if_neg herr, if_neg herr]
    exact ⟨h.1, h.2.1, h.2.2.1, h.2.2.2.1.trans rfl, h.2.2.2.2.1.trans rfl,
      h.2.2.2.2.2.1, h.2.2.2.2.2.2.1, h.2.2.2.2.2.2.2.1,
      h.2.2.2.2.2.2.2.2.1, h.2.2.2.2.2.2.2.2.2⟩

/-- The sibling-propagation pass over all connections (service.py lines
388-425): every connection matching the sibling filter is updated, every
other connection is untouched. -/
def propagate_to_siblings (enc : List Nat → List Nat)
    (ledger_id provider_id : Int) (external_bank_id : Option (List Nat))
    (new_connection_id : Int) (access_token : List Nat)
    (refresh_token : Option (List Nat)) (new_expiry : Int)
    (accounts : List CandidateAccount)
    (conns : List BankConnection) : List BankConnection :=
  conns.map fun c =>
    if is_sibling ledger_id provider_id external_bank_id new_connection_id c then
      update_sibling enc access_token refresh_token new_expiry accounts c
    else c

/-- C9: after the propagation pass, every other non-DISCONNECTED connection
in the same ledger with the same provider and the same external bank id
holds the new encrypted session credential and expiry estimate, and is
reset from ERROR to ACTIVE with its error cleared; every connection with a
different external bank id (or a different ledger, or a different
provider) is left entirely unchanged. -/
theorem propagate_to_siblings_spec :
    ∀ enc L P B X tok rtok exp accounts (conns : List BankConnection)
      (i : Nat) (c : BankConnection),
      conns[i]? = some c →
      ∃ c', (propagate_to_siblings enc L P B X tok rtok exp accounts conns)[i]?
              = some c' ∧
        (c.ledger_id = L → c.provider_id = P → c.external_bank_id = B →
         c.id ≠ X → c.status ≠ BankConnectionStatus.DISCONNECTED →
            c'.access_token = some (enc tok) ∧
            c'.refresh_token = rtok.map enc ∧
            c'.token_expires_at = some exp ∧
            (c.status = BankConnectionStatus.ERROR →
                c'.status = BankConnectionStatus.ACTIVE ∧
                c'.connection_error = none) ∧
            c'.id = c.id ∧ c'.ledger_id = c.ledger_id ∧
            c'.provider_id = c.provider_id ∧
            c'.external_bank_id = c.external_bank_id ∧
            c'.bank_account_id = c.bank_account_id) ∧
        (¬ (c.ledger_id = L ∧ c.provider_id = P ∧ c.external_bank_id = B ∧
              c.id ≠ X ∧ c.status ≠ BankConnectionStatus.DISCONNECTED) →
            c' = c) := by
  intro enc L P B X tok rtok exp accounts conns i c hget
  refine ⟨if is_sibling L P B X c then
      update_sibling enc tok rtok exp accounts c else c, ?_, ?_, ?_⟩
  · unfold propagate_to_siblings
    rw [List.getElem?_map, hget]
    rfl
  · intro h1 h2 h3 h4 h5
    have hsib : is_sibling L P B X c = true := by
      unfold is_sibling
      simp only [Bool.and_eq_true, decide_eq_true_eq]
      exact ⟨⟨⟨⟨h1, h2⟩, h3⟩, h4⟩, h5⟩
    rw [if_pos hsib]
    have h := update_sibling_fields enc tok rtok exp accounts c
    refine ⟨h.1, h.2.1, h.2.2.1, ?_, h.2.2.2.2.2.1, h.2.2.2.2.2.2.1,
      h.2.2.2.2.2.2.2.1, h.2.2.2.2.2.2.2.2.1, h.2.2.2.2.2.2.2.2.2⟩
    intro herr
    exact ⟨h.2.2.2.1.trans (if_pos herr), h.2.2.2.2.1.trans (if_pos herr)⟩
  · intro hnot
    have hsib : ¬ (is_sibling L P B X c = true) := by
      intro hsib
      unfold is_sibling at hsib
      simp only [Bool.and_eq_true, decide_eq_true_eq] at hsib
      exact hnot ⟨hsib.1.1.1.1, hsib.1.1.1.2, hsib.1.1.2, hsib.1.2, hsib.2⟩
    rw [if_neg hsib]

/-- Concrete instantiation of the sibling-propagation theorem: a sibling in
ERROR on the same bank receives the new credential and is reset to
ACTIVE. -/
theorem propagate_to_siblings_spec_witness :
    ∃ c', (propagate_to_siblings (fun s => s) 1 2 (some (str2nat "DNB")) 9
        (str2nat "tok") none 500 []
        [⟨3, 1, 4, 2, some (str2nat "DNB"), [], none, none, none, none, none,
          BankConnectionStatus.ERROR, some (str2nat "boom"), none, none,
          none⟩])[0]?
        = some c' ∧
      c'.access_token = some (str2nat "tok") ∧
      c'.token_expires_at = some 500 ∧
      c'.status = BankConnectionStatus.ACTIVE ∧
      c'.connection_error = none := by
  obtain ⟨c', hget, hsib, _⟩ := propagate_to_siblings_spec (fun s => s) 1 2
    (some (str2nat "DNB")) 9 (str2nat "tok") none 500 []
    [⟨3, 1, 4, 2, some (str2nat "DNB"), [], none, none, none, none, none,
      BankConnectionStatus.ERROR, some (str2nat "boom"), none, none, none⟩]
    0 _ rfl
  have h := hsib rfl rfl rfl (by decide) (by decide)
  exact ⟨c', hget, h.1, h.2.2.1, (h.2.2.2.1 rfl).1, (h.2.2.2.1 rfl).2⟩

/-! ## Provider adapter: paginated transaction fetch
(`EnableBankingProvider.fetch_transactions`, enable_banking.py lines
580-663) -/

/-- A Python exception relevant to the sync engine: the provider's
`SessionExpiredError`, or any other exception (carrying `str(e)`). -/
inductive PyExc
  | sessionExpired (msg : List Nat)
  | generic (msg : List Nat)
deriving DecidableEq, Repr

/-- `str(e)` of a modelled exception. -/
def PyExc.msg : PyExc → List Nat
  | PyExc.sessionExpired m => m
  | PyExc.generic m => m

/-- One parsed response of
`GET /accounts/{id}/transactions`: the page's normalized transactions and
the optional opaque continuation key. -/
structure TxPage where
  transactions : List RawTx
  continuation_key : Option (List Nat)
deriving DecidableEq, Repr

/-- The pagination loop of `fetch_transactions` (enable_banking.py lines
589-656).  `server n` is the (parsed) response to the `n`-th request
(0-based; an error response raises and aborts the loop).  `page_num`
requests have already been issued when an iteration starts; the loop
appends the new page, stops when the continuation key is absent, and stops
at the hard cap of 100 pages.  Returns the accumulated transactions and
the total number of requests issued. -/
def fetch_transactions_loop (server : Nat → Except PyExc TxPage)
    (page_num : Nat) : Except PyExc (List RawTx × Nat) :=
  match server page_num with
  | Except.error e => Except.error e
  | Except.ok page =>
    if page.continuation_key = none then
      Except.ok (page.transactions, page_num + 1)
    else if h : 100 ≤ page_num + 1 then
      Except.ok (page.transactions, page_num + 1)
    else
      match fetch_transactions_loop server (page_num + 1) with
      | Except.error e => Except.error e
      | Except.ok (rest, last) => Except.ok (page.transactions ++ rest, last)
termination_by 100 - page_num
decreasing_by omega

/-- `EnableBankingProvider.fetch_transactions`, pagination part: run the
loop from the first request. -/
def fetch_transactions (server : Nat → Except PyExc TxPage) :
    Except PyExc (List RawTx × Nat) :=
  fetch_transactions_loop server 0

/-- Offset form of the pagination property: starting after `n` issued
requests, a provider serving `k` further pages whose continuation key is
present exactly on the non-final pages yields the concatenation of those
pages in order, in `k` further requests. -/
theorem fetch_transactions_loop_pages (server : Nat → Except PyExc TxPage) :
    ∀ k (pages : Nat → TxPage) n, 1 ≤ k → n + k ≤ 100 →
    (∀ i, i < k → server (n + i) = Except.ok (pages i)) →
    (∀ i, i < k → ((pages i).continuation_key = none ↔ i = k - 1)) →
    fetch_transactions_loop server n
      = Except.ok ((((List.range k).map fun i => (pages i).transactions)).flatten,
          n + k) := by
  intro k
  induction k with
  | zero => intro pages n h1; exact absurd h1 (by omega)
  | succ k ih =>
    intro pages n h1 h2 hs hc
    rw [fetch_transactions_loop]
    have hs0 : server n = Except.ok (pages 0) := hs 0 (by omega)
    rw [hs0]
    dsimp only
    by_cases hk : k = 0
    · subst hk
      have hcont : (pages 0).continuation_key = none := (hc 0 (by omega)).mpr rfl
      rw [if_pos hcont]
      simp [List.range_succ]
    · have hcont : ¬ (pages 0).continuation_key = none := by
        intro h
        have := (hc 0 (by omega)).mp h
        omega
      rw [if_neg hcont, dif_neg (by omega)]
      have hrec := ih (fun i => pages (i + 1)) (n + 1) (by omega) (by omega)
        (fun i hi => by
          have := hs (i + 1) (by omega)
          rw [show n + 1 + i = n + (i + 1) by omega]
          exact this)
        (fun i hi => by
          have h' := hc (i + 1) (by omega)
          constructor
          · intro hh
            have := h'.mp hh
            omega
          · intro hh
            exact h'.mpr (by omega))
      rw [hrec]
      dsimp only
      have hjoin :
          (((List.range (k + 1)).map fun i => (pages i).transactions)).flatten
            = (pages 0).transactions ++
              (((List.range k).map fun i => (pages (i + 1)).transactions)).flatten := by
        rw [List.range_succ_eq_map]
        simp only [List.map_cons, List.flatten_cons, List.map_map]
        rfl
      rw [show n + 1 + k = n + (k + 1) by omega, hjoin]

/-- The loop never issues more than 100 requests. -/
theorem fetch_transactions_loop_count (server : Nat → Except PyExc TxPage) :
    ∀ m n r, 100 - n ≤ m → fetch_transactions_loop server n = Except.ok r →
      r.2 ≤ max (n + 1) 100 := by
  intro m
  induction m with
  | zero =>
    intro n r hm hr
    rw [fetch_transactions_loop] at hr
    rcases hsrv : server n with e | page <;> rw [hsrv] at hr <;> dsimp only at hr
    · cases hr
    · by_cases hcont : page.continuation_key = none
      · rw [if_pos hcont] at hr
        cases hr
        simp
      · rw [if_neg hcont, dif_pos (by omega)] at hr
        cases hr
        simp
  | succ m ih =>
    intro n r hm hr
    rw [fetch_transactions_loop] at hr
    rcases hsrv : server n with e | page <;> rw [hsrv] at hr <;> dsimp only at hr
    · cases hr
    · by_cases hcont : page.continuation_key = none
      · rw [if_pos hcont] at hr
        cases hr
        simp
      · by_cases hcap : 100 ≤ n + 1
        · rw [if_neg hcont, dif_pos hcap] at hr
          cases hr
          simp
        · rw [if_neg hcont, dif_neg hcap] at hr
          rcases hrec : fetch_transactions_loop server (n + 1) with e | pr <;>
            rw [hrec] at hr
          · cases hr
          · obtain ⟨rest, last⟩ := pr
            cases hr
            have := ih (n + 1) (rest, last) (by omega) hrec
            simp only at this ⊢
            omega

/-- C8: the paginated fetch requests pages in a loop, appending each page's
normalized transactions in order, and continues exactly while the response
carries a continuation key and fewer than 100 pages have been fetched: a
provider serving `k ≤ 100` pages with the continuation key present exactly
on pages `1..k-1` yields the in-order concatenation of the `k` pages after
exactly `k` requests, and no run of the loop ever issues more than 100
requests. -/
theorem fetch_transactions_pagination_spec :
    (∀ (server : Nat → Except PyExc TxPage) (pages : Nat → TxPage) k,
      1 ≤ k → k ≤ 100 →
      (∀ i, i < k → server i = Except.ok (pages i)) →
      (∀ i, i < k → ((pages i).continuation_key = none ↔ i = k - 1)) →
      fetch_transactions server
        = Except.ok ((((List.range k).map fun i => (pages i).transactions)).flatten,
            k))
  ∧ (∀ (server : Nat → Except PyExc TxPage) r,
      fetch_transactions server = Except.ok r → r.2 ≤ 100) := by
  constructor
  · intro server pages k h1 h2 hs hc
    have := fetch_transactions_loop_pages server k pages 0 h1 (by omega)
      (fun i hi => by simpa using hs i hi) hc
    simpa using this
  · intro server r hr
    have := fetch_transactions_loop_count server 100 0 r (by omega) hr
    simpa using this

/-- Concrete instantiation of the pagination theorem: 3 pages, continuation
key on pages 1 and 2 only, result is the concatenation after exactly 3
requests. -/
theorem fetch_transactions_pagination_spec_witness :
    fetch_transactions (fun i =>
        if i = 0 then
          Except.ok ⟨[⟨str2nat "A", some 1, none, none, 100, str2nat "NOK",
            str2nat "a", none, none, []⟩], some (str2nat "k1")⟩
        else if i = 1 then
          Except.ok ⟨[⟨str2nat "B", some 2, none, none, 200, str2nat "NOK",
            str2nat "b", none, none, []⟩], some (str2nat "k2")⟩
        else
          Except.ok ⟨[⟨str2nat "C", some 3, none, none, 300, str2nat "NOK",
            str2nat "c", none, none, []⟩], none⟩)
      = Except.ok
          ([⟨str2nat "A", some 1, none, none, 100, str2nat "NOK",
              str2nat "a", none, none, []⟩,
            ⟨str2nat "B", some 2, none, none, 200, str2nat "NOK",
              str2nat "b", none, none, []⟩,
            ⟨str2nat "C", some 3, none, none, 300, str2nat "NOK",
              str2nat "c", none, none, []⟩], 3) := by
  have h := fetch_transactions_pagination_spec.1
    (fun i =>
      if i = 0 then
        Except.ok ⟨[⟨str2nat "A", some 1, none, none, 100, str2nat "NOK",
          str2nat "a", none, none, []⟩], some (str2nat "k1")⟩
      else if i = 1 then
        Except.ok ⟨[⟨str2nat "B", some 2, none, none, 200, str2nat "NOK",
          str2nat "b", none, none, []⟩], some (str2nat "k2")⟩
      else
        Except.ok ⟨[⟨str2nat "C", some 3, none, none, 300, str2nat "NOK",
          str2nat "c", none, none, []⟩], none⟩)
    (fun i =>
      if i = 0 then
        ⟨[⟨str2nat "A", some 1, none, none, 100, str2nat "NOK",
          str2nat "a", none, none, []⟩], some (str2nat "k1")⟩
      else if i = 1 then
        ⟨[⟨str2nat "B", some 2, none, none, 200, str2nat "NOK",
          str2nat "b", none, none, []⟩], some (str2nat "k2")⟩
      else
        ⟨[⟨str2nat "C", some 3, none, none, 300, str2nat "NOK",
          str2nat "c", none, none, []⟩], none⟩)
    3 (by omega) (by omega)
    (by intro i hi; interval_cases i <;> rfl)
    (by
      intro i hi
      interval_cases i <;> simp)
  rw [h]
  rfl

/-! ## Transaction chain matcher
(`TransactionChainMatcher.find_chain_candidates`,
transaction_chaining.py lines 55-138) -/

/-- A `ChainSuggestion` (transaction_chaining.py lines 21-46).  The two
display-only account-name fields (resolved through the entry's `account`
relationship) are omitted; every other field is kept. -/
structure ChainSuggestion where
  primary_transaction_id : Int
  secondary_transaction_id : Int
  primary_description : List Nat
  secondary_description : List Nat
  amount : Int
  primary_date : Int
  secondary_date : Int
  confidence : List Nat
deriving DecidableEq, Repr

/-- The query plus single-entry filter (transaction_chaining.py lines
57-67): DRAFT, BANK_SYNC transactions of the ledger with exactly one
journal entry. -/
def chainable_singles (transactions : List Transaction) (ledger_id : Int) :
    List Transaction :=
  (transactions.filter fun t =>
      decide (t.ledger_id = ledger_id) &&
      decide (t.status = TransactionStatus.DRAFT) &&
      decide (t.source = TransactionSource.BANK_SYNC)).filter
    fun t => decide (t.journal_entries.length = 1)

/-- The pure-debit side of the partition (transaction_chaining.py lines
73-78): the single entry has `debit > 0` and `credit == 0`. -/
def debit_singles (singles : List Transaction) :
    List (Transaction × JournalEntry) :=
  singles.filterMap fun t =>
    match t.journal_entries with
    | [e] => if 0 < e.debit ∧ e.credit = 0 then some (t, e) else none
    | _ => none

/-- The pure-credit side of the partition (transaction_chaining.py lines
73-78): the single entry has `credit > 0` and `debit == 0`. -/
def credit_singles (singles : List Transaction) :
    List (Transaction × JournalEntry) :=
  singles.filterMap fun t =>
    match t.journal_entries with
    | [e] => if 0 < e.credit ∧ e.debit = 0 then some (t, e) else none
    | _ => none

/-- One iteration of the inner candidate scan (transaction_chaining.py
lines 88-103): skip used credits, same-account pairs, unequal amounts and
date differences above 2 days; keep the first strictly-smaller date
difference. -/
def chain_scan_step (de : JournalEntry) (ddate : Int) (used : List Int)
    (st : Option (Transaction × JournalEntry) × Int)
    (c : Transaction × JournalEntry) :
    Option (Transaction × JournalEntry) × Int :=
  if c.1.id ∈ used then st
  else if de.account_id = c.2.account_id then st
  else if ¬ de.debit = c.2.credit then st
  else if 2 < pyAbs (ddate - c.1.transaction_date) then st
  else if pyAbs (ddate - c.1.transaction_date) < st.2 then
    (some c, pyAbs (ddate - c.1.transaction_date))
  else st

/-- The inner scan over all credit candidates for one debit
(transaction_chaining.py lines 85-103), starting from
`best_match = None`, `best_date_diff = 999`. -/
def best_credit_match (de : JournalEntry) (ddate : Int) (used : List Int)
    (credits : List (Transaction × JournalEntry)) :
    Option (Transaction × JournalEntry) × Int :=
  credits.foldl (chain_scan_step de ddate used) (none, 999)

/-- The outer matching loop (transaction_chaining.py lines 84-130),
returning the chosen (debit, credit, best date difference) triples in
debit order; a chosen credit's transaction id joins the used set. -/
def chain_matches (credits : List (Transaction × JournalEntry)) :
    List (Transaction × JournalEntry) → List Int →
    List ((Transaction × JournalEntry) × (Transaction × JournalEntry) × Int)
  | [], _ => []
  | d :: ds, used =>
    match best_credit_match d.2 d.1.transaction_date used credits with
    | (some c, bestDiff) =>
        (d, c, bestDiff) :: chain_matches credits ds (c.1.id :: used)
    | (none, _) => chain_matches credits ds used

/-- Suggestion construction for one chosen pair (transaction_chaining.py
lines 105-128): confidence HIGH when the best date difference is 0 and
MEDIUM otherwise; the transaction with the earlier (or equal) date is the
primary; the amount is the debit side's debit. -/
def make_suggestion
    (m : (Transaction × JournalEntry) × (Transaction × JournalEntry) × Int) :
    ChainSuggestion :=
  if m.1.1.transaction_date ≤ m.2.1.1.transaction_date then
    { primary_transaction_id := m.1.1.id
      secondary_transaction_id := m.2.1.1.id
      primary_description := m.1.1.description
      secondary_description := m.2.1.1.description
      amount := m.1.2.debit
      primary_date := m.1.1.transaction_date
      secondary_date := m.2.1.1.transaction_date
      confidence := if m.2.2 = 0 then str2nat "HIGH" else str2nat "MEDIUM" }
  else
    { primary_transaction_id := m.2.1.1.id
      secondary_transaction_id := m.1.1.id
      primary_description := m.2.1.1.description
      secondary_description := m.1.1.description
      amount := m.1.2.debit
      primary_date := m.2.1.1.transaction_date
      secondary_date := m.1.1.transaction_date
      confidence := if m.2.2 = 0 then str2nat "HIGH" else str2nat "MEDIUM" }

/-- The final sort key (transaction_chaining.py lines 133-136): HIGH
confidence first, then by primary date descending. -/
def suggestion_le (a b : ChainSuggestion) : Bool :=
  decide
    (((if a.confidence = str2nat "HIGH" then (0 : Int) else 1) <
        (if b.confidence = str2nat "HIGH" then (0 : Int) else 1)) ∨
     ((if a.confidence = str2nat "HIGH" then (0 : Int) else 1) =
        (if b.confidence = str2nat "HIGH" then (0 : Int) else 1) ∧
      -a.primary_date ≤ -b.primary_date))

/-- `TransactionChainMatcher.find_chain_candidates`
(transaction_chaining.py lines 55-138).  Python's `list.sort` is a stable
sort by the key above; it is modelled by the (stable) insertion sort over
the same total preorder, which produces the identical list. -/
def find_chain_candidates (transactions : List Transaction)
    (ledger_id : Int) : List ChainSuggestion :=
  ((chain_matches (credit_singles (chainable_singles transactions ledger_id))
      (debit_singles (chainable_singles transactions ledger_id))
      []).map make_suggestion).insertionSort
    fun a b => suggestion_le a b = true

example :
    find_chain_candidates
      [⟨1, 1, 10, str2nat "to savings", none, TransactionStatus.DRAFT,
        TransactionSource.BANK_SYNC, none, [⟨11, 1, 500, 0, 50000, []⟩]⟩,
       ⟨2, 1, 11, str2nat "from checking", none, TransactionStatus.DRAFT,
        TransactionSource.BANK_SYNC, none, [⟨12, 2, 600, 50000, 0, []⟩]⟩] 1
    = [⟨1, 2, str2nat "to savings", str2nat "from checking", 50000, 10, 11,
        str2nat "MEDIUM"⟩] := by decide

/-- `pyAbs` vanishes exactly on 0. -/
theorem pyAbs_eq_zero (x : Int) : pyAbs x = 0 ↔ x = 0 := by
  unfold pyAbs
  split <;> omega

/-- The inner scan's per-candidate eligibility conditions
(transaction_chaining.py lines 89-98): unused credit, different GL
account, exactly equal amount, date difference at most 2 days. -/
def EligibleCredit (de : JournalEntry) (ddate : Int) (used : List Int)
    (c : Transaction × JournalEntry) : Prop :=
  c.1.id ∉ used ∧ de.account_id ≠ c.2.account_id ∧ de.debit = c.2.credit ∧
  pyAbs (ddate - c.1.transaction_date) ≤ 2

/-- One scan step keeps the state valid. -/
theorem chain_scan_step_valid (de : JournalEntry) (ddate : Int)
    (used : List Int) (cs0 : List (Transaction × JournalEntry))
    (st : Option (Transaction × JournalEntry) × Int)
    (x : Transaction × JournalEntry)
    (hst : ∀ c, st.1 = some c → c ∈ cs0 ∧ EligibleCredit de ddate used c ∧
        st.2 = pyAbs (ddate - c.1.transaction_date))
    (hx : x ∈ cs0) :
    ∀ c, (chain_scan_step de ddate used st x).1 = some c →
      c ∈ cs0 ∧ EligibleCredit de ddate used c ∧
      (chain_scan_step de ddate used st x).2
        = pyAbs (ddate - c.1.transaction_date) := by
  intro c h
  unfold chain_scan_step at h ⊢
  split_ifs at h ⊢ with h1 h2 h3 h4 h5 <;>
    first
      | exact hst c h
      | (cases h
         exact ⟨hx, ⟨h1, h2, h3, by omega⟩, rfl⟩)

/-- One scan step never increases the best date difference. -/
theorem chain_scan_step_mono (de : JournalEntry) (ddate : Int)
    (used : List Int) (st : Option (Transaction × JournalEntry) × Int)
    (x : Transaction × JournalEntry) :
    (chain_scan_step de ddate used st x).2 ≤ st.2 := by
  unfold chain_scan_step
  split_ifs with h1 h2 h3 h4 h5 <;> first | exact le_refl _ | omega

/-- After scanning an eligible candidate, the best date difference is at
most that candidate's. -/
theorem chain_scan_step_capture (de : JournalEntry) (ddate : Int)
    (used : List Int) (st : Option (Transaction × JournalEntry) × Int)
    (x : Transaction × JournalEntry)
    (hx : EligibleCredit de ddate used x) :
    (chain_scan_step de ddate used st x).2
      ≤ pyAbs (ddate - x.1.transaction_date) := by
  obtain ⟨hu, ha, hm, hd⟩ := hx
  unfold chain_scan_step
  rw [if_neg hu, if_neg ha, if_neg (not_not.mpr hm), if_neg (by omega)]
  split_ifs with h5 <;> first | exact le_refl _ | omega

/-- Invariant of the whole inner scan: the held best match is a valid
eligible candidate with the recorded date difference, the recorded
difference never increases, and it is at most the difference of every
eligible candidate scanned. -/
theorem best_scan_foldl (de : JournalEntry) (ddate : Int) (used : List Int)
    (cs0 : List (Transaction × JournalEntry)) :
    ∀ (cs : List (Transaction × JournalEntry))
      (st : Option (Transaction × JournalEntry) × Int),
      (∀ c, st.1 = some c → c ∈ cs0 ∧ EligibleCredit de ddate used c ∧
          st.2 = pyAbs (ddate - c.1.transaction_date)) →
      (∀ x ∈ cs, x ∈ cs0) →
      (∀ c, (cs.foldl (chain_scan_step de ddate used) st).1 = some c →
          c ∈ cs0 ∧ EligibleCredit de ddate used c ∧
          (cs.foldl (chain_scan_step de ddate used) st).2
            = pyAbs (ddate - c.1.transaction_date)) ∧
      (cs.foldl (chain_scan_step de ddate used) st).2 ≤ st.2 ∧
      (∀ x ∈ cs, EligibleCredit de ddate used x →
          (cs.foldl (chain_scan_step de ddate used) st).2
            ≤ pyAbs (ddate - x.1.transaction_date)) := by
  intro cs
  induction cs with
  | nil =>
    intro st hst _
    exact ⟨hst, le_refl _, fun x hx => absurd hx (List.not_mem_nil x)⟩
  | cons x cs ih =>
    intro st hst hsub
    have hst' := chain_scan_step_valid de ddate used cs0 st x hst
      (hsub x (List.mem_cons_self x cs))
    have hmem' : ∀ y ∈ cs, y ∈ cs0 :=
      fun y hy => hsub y (List.mem_cons_of_mem x hy)
    obtain ⟨ihv, ihm, ihc⟩ := ih (chain_scan_step de ddate used st x) hst' hmem'
    refine ⟨ihv, le_trans ihm (chain_scan_step_mono de ddate used st x), ?_⟩
    intro y hy hel
    rcases List.mem_cons.mp hy with hy | hy
    · subst hy
      exact le_trans ihm (chain_scan_step_capture de ddate used st y hel)
    · exact ihc y hy hel

/-- Full description of the inner candidate scan for one debit. -/
theorem best_credit_match_spec (de : JournalEntry) (ddate : Int)
    (used : List Int) (credits : List (Transaction × JournalEntry))
    (c : Transaction × JournalEntry) (diff : Int)
    (h : best_credit_match de ddate used credits = (some c, diff)) :
    c ∈ credits ∧ EligibleCredit de ddate used c ∧
    diff = pyAbs (ddate - c.1.transaction_date) ∧ diff ≤ 2 ∧
    (∀ x ∈ credits, EligibleCredit de ddate used x →
        diff ≤ pyAbs (ddate - x.1.transaction_date)) := by
  obtain ⟨hv, _, hc⟩ := best_scan_foldl de ddate used credits credits
    ((none, 999) : Option (Transaction × JournalEntry) × Int)
    (fun c hc => by cases hc) (fun x hx => hx)
  unfold best_credit_match at h
  have h1 : (credits.foldl (chain_scan_step de ddate used)
      ((none, 999) : Option (Transaction × JournalEntry) × Int)).1 = some c := by
    rw [h]
  obtain ⟨hmem, hel, hdiff⟩ := hv c h1
  have h2 : (credits.foldl (chain_scan_step de ddate used)
      ((none, 999) : Option (Transaction × JournalEntry) × Int)).2 = diff := by
    rw [h]
  refine ⟨hmem, hel, by rw [← h2, hdiff], by rw [← h2, hdiff]; exact hel.2.2.2, ?_⟩
  intro x hx hxe
  rw [← h2]
  exact hc x hx hxe

/-- Soundness of the outer matching loop: every produced triple pairs a
debit from the debit list with an eligible, unused credit from the credit
list, on different accounts, with exactly equal amounts and a date
difference of at most 2 days, recording that difference. -/
theorem chain_matches_sound (credits : List (Transaction × JournalEntry)) :
    ∀ (debits : List (Transaction × JournalEntry)) (used : List Int)
      (m : (Transaction × JournalEntry) × (Transaction × JournalEntry) × Int),
      m ∈ chain_matches credits debits used →
      m.1 ∈ debits ∧ m.2.1 ∈ credits ∧ m.2.1.1.id ∉ used ∧
      m.1.2.account_id ≠ m.2.1.2.account_id ∧
      m.1.2.debit = m.2.1.2.credit ∧
      m.2.2 = pyAbs (m.1.1.transaction_date - m.2.1.1.transaction_date) ∧
      m.2.2 ≤ 2 := by
  intro debits
  induction debits with
  | nil =>
    intro used m hm
    rw [chain_matches] at hm
    exact absurd hm (List.not_mem_nil m)
  | cons d ds ih =>
    intro used m hm
    rw [chain_matches] at hm
    rcases hbest : best_credit_match d.2 d.1.transaction_date used credits with
      ⟨bc, bdiff⟩
    rw [hbest] at hm
    rcases bc with _ | c
    · dsimp only at hm
      obtain ⟨h1, h2, h3, h4, h5, h6, h7⟩ := ih used m hm
      exact ⟨List.mem_cons_of_mem d h1, h2, h3, h4, h5, h6, h7⟩
    · dsimp only at hm
      rcases List.mem_cons.mp hm with hm | hm
      · subst hm
        obtain ⟨hcmem, hel, hdiff, hle, _⟩ :=
          best_credit_match_spec d.2 d.1.transaction_date used credits c bdiff
            hbest
        exact ⟨List.mem_cons_self d ds, hcmem, hel.1, hel.2.1, hel.2.2.1,
          hdiff, hle⟩
      · obtain ⟨h1, h2, h3, h4, h5, h6, h7⟩ := ih (c.1.id :: used) m hm
        exact ⟨List.mem_cons_of_mem d h1, h2,
          fun hmm => h3 (List.mem_cons_of_mem _ hmm), h4, h5, h6, h7⟩

/-- Each credit transaction is consumed at most once by the matching
loop. -/
theorem chain_matches_credits_unique
    (credits : List (Transaction × JournalEntry)) :
    ∀ (debits : List (Transaction × JournalEntry)) (used : List Int),
      List.Pairwise (fun m1 m2 => m1.2.1.1.id ≠ m2.2.1.1.id)
        (chain_matches credits debits used) := by
  intro debits
  induction debits with
  | nil =>
    intro used
    rw [chain_matches]
    exact List.Pairwise.nil
  | cons d ds ih =>
    intro used
    rw [chain_matches]
    rcases hbest : best_credit_match d.2 d.1.transaction_date used credits with
      ⟨bc, bdiff⟩
    rcases bc with _ | c
    · exact ih used
    · dsimp only
      refine List.Pairwise.cons ?_ (ih (c.1.id :: used))
      intro m hm heq
      have hnotin :=
        (chain_matches_sound credits ds (c.1.id :: used) m hm).2.2.1
      exact hnotin (by rw [← heq]; exact List.mem_cons_self _ _)

/-- Description of the suggestion built for one chosen pair: HIGH exactly
when the dates are identical, MEDIUM otherwise; the side with the earlier
(or equal) date is primary; the amount is the debit amount. -/
theorem make_suggestion_spec
    (m : (Transaction × JournalEntry) × (Transaction × JournalEntry) × Int)
    (hdiff : m.2.2
      = pyAbs (m.1.1.transaction_date - m.2.1.1.transaction_date)) :
    (make_suggestion m).amount = m.1.2.debit ∧
    ((make_suggestion m).confidence = str2nat "HIGH" ↔
        m.1.1.transaction_date = m.2.1.1.transaction_date) ∧
    ((make_suggestion m).confidence = str2nat "HIGH" ∨
        (make_suggestion m).confidence = str2nat "MEDIUM") ∧
    ((m.1.1.transaction_date ≤ m.2.1.1.transaction_date ∧
        (make_suggestion m).primary_transaction_id = m.1.1.id ∧
        (make_suggestion m).secondary_transaction_id = m.2.1.1.id ∧
        (make_suggestion m).primary_date = m.1.1.transaction_date ∧
        (make_suggestion m).secondary_date = m.2.1.1.transaction_date) ∨
      (m.2.1.1.transaction_date < m.1.1.transaction_date ∧
        (make_suggestion m).primary_transaction_id = m.2.1.1.id ∧
        (make_suggestion m).secondary_transaction_id = m.1.1.id ∧
        (make_suggestion m).primary_date = m.2.1.1.transaction_date ∧
        (make_suggestion m).secondary_date = m.1.1.transaction_date)) ∧
    (make_suggestion m).primary_date ≤ (make_suggestion m).secondary_date := by
  unfold make_suggestion
  by_cases hle : m.1.1.transaction_date ≤ m.2.1.1.transaction_date
  · rw [if_pos hle]
    by_cases h0 : m.2.2 = 0
    · rw [if_pos h0]
      refine ⟨rfl, ?_, Or.inl rfl, Or.inl ⟨hle, rfl, rfl, rfl, rfl⟩, hle⟩
      constructor
      · intro _
        have h := hdiff
        rw [h0] at h
        have := (pyAbs_eq_zero _).mp h.symm
        omega
      · intro _
        rfl
    · rw [if_neg h0]
      refine ⟨rfl, ?_, Or.inr rfl, Or.inl ⟨hle, rfl, rfl, rfl, rfl⟩, hle⟩
      constructor
      · intro hcontra
        have hmh : str2nat "MEDIUM" = str2nat "HIGH" := hcontra
        exact absurd hmh (by decide)
      · intro heq
        exfalso
        apply h0
        rw [hdiff, heq]
        exact (pyAbs_eq_zero _).mpr (by omega)
  · rw [if_neg hle]
    by_cases h0 : m.2.2 = 0
    · rw [if_pos h0]
      refine ⟨rfl, ?_, Or.inl rfl,
        Or.inr ⟨by omega, rfl, rfl, rfl, rfl⟩,
        (by omega :
          m.2.1.1.transaction_date ≤ m.1.1.transaction_date)⟩
      constructor
      · intro _
        have h := hdiff
        rw [h0] at h
        have := (pyAbs_eq_zero _).mp h.symm
        omega
      · intro _
        rfl
    · rw [if_neg h0]
      refine ⟨rfl, ?_, Or.inr rfl,
        Or.inr ⟨by omega, rfl, rfl, rfl, rfl⟩,
        (by omega :
          m.2.1.1.transaction_date ≤ m.1.1.transaction_date)⟩
      constructor
      · intro hcontra
        have hmh : str2nat "MEDIUM" = str2nat "HIGH" := hcontra
        exact absurd hmh (by decide)
      · intro heq
        exfalso
        apply h0
        rw [hdiff, heq]
        exact (pyAbs_eq_zero _).mpr (by omega)

/-- C7: every suggestion of the chain matcher pairs a pure-debit DRAFT
bank-sync single with a pure-credit one on a different GL account, with
exactly equal amounts and dates at most 2 days apart; the inner scan
returns an eligible credit of minimal date difference among the unused
ones; no credit is consumed twice; confidence is HIGH exactly when the two
dates coincide (MEDIUM otherwise), and the earlier-or-equal-dated
transaction is the primary. -/
theorem find_chain_candidates_spec :
    (∀ txs L s, s ∈ find_chain_candidates txs L →
        ∃ dt de ct ce,
          (dt, de) ∈ debit_singles (chainable_singles txs L) ∧
          (ct, ce) ∈ credit_singles (chainable_singles txs L) ∧
          de.account_id ≠ ce.account_id ∧
          de.debit = ce.credit ∧
          pyAbs (dt.transaction_date - ct.transaction_date) ≤ 2 ∧
          s.amount = de.debit ∧
          (s.confidence = str2nat "HIGH" ↔
              dt.transaction_date = ct.transaction_date) ∧
          (s.confidence = str2nat "HIGH" ∨
              s.confidence = str2nat "MEDIUM") ∧
          ((dt.transaction_date ≤ ct.transaction_date ∧
              s.primary_transaction_id = dt.id ∧
              s.secondary_transaction_id = ct.id ∧
              s.primary_date = dt.transaction_date ∧
              s.secondary_date = ct.transaction_date) ∨
            (ct.transaction_date < dt.transaction_date ∧
              s.primary_transaction_id = ct.id ∧
              s.secondary_transaction_id = dt.id ∧
              s.primary_date = ct.transaction_date ∧
              s.secondary_date = dt.transaction_date)) ∧
          s.primary_date ≤ s.secondary_date)
  ∧ (∀ de ddate used credits c diff,
      best_credit_match de ddate used credits = (some c, diff) →
      c ∈ credits ∧ c.1.id ∉ used ∧ de.account_id ≠ c.2.account_id ∧
      de.debit = c.2.credit ∧ diff = pyAbs (ddate - c.1.transaction_date) ∧
      diff ≤ 2 ∧
      (∀ x ∈ credits, x.1.id ∉ used → de.account_id ≠ x.2.account_id →
        de.debit = x.2.credit → pyAbs (ddate - x.1.transaction_date) ≤ 2 →
        diff ≤ pyAbs (ddate - x.1.transaction_date)))
  ∧ (∀ txs L, List.Pairwise (fun m1 m2 => m1.2.1.1.id ≠ m2.2.1.1.id)
      (chain_matches (credit_singles (chainable_singles txs L))
        (debit_singles (chainable_singles txs L)) [])) := by
  refine ⟨?_, ?_, ?_⟩
  · intro txs L s hs
    unfold find_chain_candidates at hs
    have hs' := (List.perm_insertionSort
      (fun a b => suggestion_le a b = true) _).mem_iff.mp hs
    obtain ⟨m, hmmem, hmeq⟩ := List.mem_map.mp hs'
    obtain ⟨hd, hc, _, ha, hm, hdiff, hle⟩ :=
      chain_matches_sound _ _ _ m hmmem
    obtain ⟨hamount, hconf, hconfor, hprim, hpd⟩ := make_suggestion_spec m hdiff
    refine ⟨m.1.1, m.1.2, m.2.1.1, m.2.1.2, by simpa using hd, by simpa using hc,
      ha, hm, by rw [← hdiff]; exact hle, ?_, ?_, ?_, ?_, ?_⟩ <;> rw [← hmeq]
    · exact hamount
    · exact hconf
    · exact hconfor
    · exact hprim
    · exact hpd
  · intro de ddate used credits c diff h
    obtain ⟨hmem, hel, hdiff, hle, hmin⟩ :=
      best_credit_match_spec de ddate used credits c diff h
    exact ⟨hmem, hel.1, hel.2.1, hel.2.2.1, hdiff, hle,
      fun x hx h1 h2 h3 h4 => hmin x hx ⟨h1, h2, h3, h4⟩⟩
  · intro txs L
    exact chain_matches_credits_unique _ _ []

/-- Concrete instantiation of the chain-matcher theorem: a 500.00 debit on
account 600 dated day 11 and a 500.00 credit on account 500 dated day 10
produce one suggestion with confidence MEDIUM whose primary is the
earlier transaction. -/
theorem find_chain_candidates_spec_witness :
    (⟨1, 2, str2nat "to savings", str2nat "from checking", 50000, 10, 11,
        str2nat "MEDIUM"⟩ : ChainSuggestion) ∈
      find_chain_candidates
        [⟨1, 1, 10, str2nat "to savings", none, TransactionStatus.DRAFT,
          TransactionSource.BANK_SYNC, none, [⟨11, 1, 500, 0, 50000, []⟩]⟩,
         ⟨2, 1, 11, str2nat "from checking", none, TransactionStatus.DRAFT,
          TransactionSource.BANK_SYNC, none, [⟨12, 2, 600, 50000, 0, []⟩]⟩] 1 ∧
    ∃ dt de ct ce,
      (dt, de) ∈ debit_singles (chainable_singles
        [⟨1, 1, 10, str2nat "to savings", none, TransactionStatus.DRAFT,
          TransactionSource.BANK_SYNC, none, [⟨11, 1, 500, 0, 50000, []⟩]⟩,
         ⟨2, 1, 11, str2nat "from checking", none, TransactionStatus.DRAFT,
          TransactionSource.BANK_SYNC, none, [⟨12, 2, 600, 50000, 0, []⟩]⟩] 1) ∧
      (ct, ce) ∈ credit_singles (chainable_singles
        [⟨1, 1, 10, str2nat "to savings", none, TransactionStatus.DRAFT,
          TransactionSource.BANK_SYNC, none, [⟨11, 1, 500, 0, 50000, []⟩]⟩,
         ⟨2, 1, 11, str2nat "from checking", none, TransactionStatus.DRAFT,
          TransactionSource.BANK_SYNC, none, [⟨12, 2, 600, 50000, 0, []⟩]⟩] 1) ∧
      de.account_id ≠ ce.account_id ∧
      de.debit = ce.credit ∧
      pyAbs (dt.transaction_date - ct.transaction_date) ≤ 2 ∧
      (⟨1, 2, str2nat "to savings", str2nat "from checking", 50000, 10, 11,
        str2nat "MEDIUM"⟩ : ChainSuggestion).amount = de.debit ∧
      ((⟨1, 2, str2nat "to savings", str2nat "from checking", 50000, 10, 11,
        str2nat "MEDIUM"⟩ : ChainSuggestion).confidence = str2nat "HIGH" ↔
          dt.transaction_date = ct.transaction_date) ∧
      ((⟨1, 2, str2nat "to savings", str2nat "from checking", 50000, 10, 11,
        str2nat "MEDIUM"⟩ : ChainSuggestion).confidence = str2nat "HIGH" ∨
       (⟨1, 2, str2nat "to savings", str2nat "from checking", 50000, 10, 11,
        str2nat "MEDIUM"⟩ : ChainSuggestion).confidence = str2nat "MEDIUM") ∧
      ((dt.transaction_date ≤ ct.transaction_date ∧
          (⟨1, 2, str2nat "to savings", str2nat "from checking", 50000, 10, 11,
            str2nat "MEDIUM"⟩ : ChainSuggestion).primary_transaction_id = dt.id ∧
          (⟨1, 2, str2nat "to savings", str2nat "from checking", 50000, 10, 11,
            str2nat "MEDIUM"⟩ : ChainSuggestion).secondary_transaction_id = ct.id ∧
          (⟨1, 2, str2nat "to savings", str2nat "from checking", 50000, 10, 11,
            str2nat "MEDIUM"⟩ : ChainSuggestion).primary_date
            = dt.transaction_date ∧
          (⟨1, 2, str2nat "to savings", str2nat "from checking", 50000, 10, 11,
            str2nat "MEDIUM"⟩ : ChainSuggestion).secondary_date
            = ct.transaction_date) ∨
        (ct.transaction_date < dt.transaction_date ∧
          (⟨1, 2, str2nat "to savings", str2nat "from checking", 50000, 10, 11,
            str2nat "MEDIUM"⟩ : ChainSuggestion).primary_transaction_id = ct.id ∧
          (⟨1, 2, str2nat "to savings", str2nat "from checking", 50000, 10, 11,
            str2nat "MEDIUM"⟩ : ChainSuggestion).secondary_transaction_id = dt.id ∧
          (⟨1, 2, str2nat "to savings", str2nat "from checking", 50000, 10, 11,
            str2nat "MEDIUM"⟩ : ChainSuggestion).primary_date
            = ct.transaction_date ∧
          (⟨1, 2, str2nat "to savings", str2nat "from checking", 50000, 10, 11,
            str2nat "MEDIUM"⟩ : ChainSuggestion).secondary_date
            = dt.transaction_date)) ∧
      (⟨1, 2, str2nat "to savings", str2nat "from checking", 50000, 10, 11,
        str2nat "MEDIUM"⟩ : ChainSuggestion).primary_date ≤
      (⟨1, 2, str2nat "to savings", str2nat "from checking", 50000, 10, 11,
        str2nat "MEDIUM"⟩ : ChainSuggestion).secondary_date := by
  refine ⟨by decide, ?_⟩
  exact find_chain_candidates_spec.1 _ 1 _ (by decide)

/-! ## Sync orchestrator
(`BankIntegrationService.sync_transactions`, service.py lines 430-783) -/

/-- A `BankTransaction` row (models.py lines 552 ff.).  The source field
`import_status` is spelled `ingest_status` and `imported_transaction_id`
is spelled `linked_transaction_id` here. -/
structure BankTransaction where
  id : Int
  bank_connection_id : Int
  external_transaction_id : List Nat
  transaction_date : Int
  booking_date : Option Int
  value_date : Option Int
  amount : Int
  currency : List Nat
  description : List Nat
  reference : Option (List Nat)
  merchant_name : Option (List Nat)
  dedup_hash : List Nat
  raw_data : List Nat
  ingest_status : IngestStatus
  linked_transaction_id : Option Int
deriving DecidableEq, Repr

/-- `TransactionDeduplicator.check_duplicate_bank_transaction`
(deduplication.py lines 150-199): first look up by (connection,
external id), then fall back to (connection, fingerprint). -/
def check_duplicate_bank_transaction (bank_txs : List BankTransaction)
    (bank_connection_id : Int) (external_id : List Nat)
    (dedup_hash : List Nat) : Option BankTransaction :=
  match bank_txs.find? (fun b =>
      decide (b.bank_connection_id = bank_connection_id ∧
        b.external_transaction_id = external_id)) with
  | some b => some b
  | none => bank_txs.find? (fun b =>
      decide (b.bank_connection_id = bank_connection_id ∧
        b.dedup_hash = dedup_hash))

/-- The fields of a `BankSyncLog` row written by `sync_transactions`
(timing is collapsed to the run's single model timestamp). -/
structure BankSyncLog where
  bank_connection_id : Int
  sync_status : BankSyncStatus
  started_at : Int
  completed_at : Option Int
  sync_from_date : Option Int
  sync_to_date : Option Int
  transactions_fetched : Option Nat
  transactions_imported : Option Nat
  transactions_duplicate : Option Nat
  error_message : Option (List Nat)
deriving DecidableEq, Repr

/-- One account as reported by the provider's session-status check, after
the source's extraction of the uid and the IBAN/BBAN identification
(service.py lines 552-564); absent strings are modelled as `none`. -/
structure SessionAccount where
  uid : Option (List Nat)
  iban : Option (List Nat)
deriving DecidableEq, Repr

/-- The parsed result of `check_session_status`. -/
structure SessionInfo where
  status : Option (List Nat)
  accounts : List SessionAccount
deriving DecidableEq, Repr

/-- The result dict returned by `sync_transactions`. -/
structure SyncResult where
  status : List Nat
  transactions_fetched : Nat
  imported : Nat
  duplicates : Nat
  errors : List (List Nat)
deriving DecidableEq, Repr

/-- The environment of one sync run: the provider's (deterministic)
behavior at each outbound call of the run, the possibility that the
post-batch database commit raises, and today's date.  Each `Except.error`
stands for the corresponding Python call raising. -/
structure SyncEnv where
  provider_exists : Bool
  has_check_session : Bool
  session_result : Except PyExc SessionInfo
  refresh_result : Except PyExc (List Nat × Int)
  fetch_result : Except PyExc (List RawTx)
  commit_exc : Option (List Nat)
  today : Int
deriving Repr

/-- The database state a sync run reads and writes: ledger transactions,
fetched bank transactions, and the next primary keys the flushes will
assign. -/
structure SyncDb where
  transactions : List Transaction
  bank_transactions : List BankTransaction
  next_transaction_id : Int
  next_entry_id : Int
  next_bank_transaction_id : Int
deriving DecidableEq, Repr

/-- The session statuses treated as terminal (service.py line 535). -/
def expired_session_statuses : List (List Nat) :=
  [str2nat "expired", str2nat "closed", str2nat "revoked", str2nat "expr"]

/-- `session_status and session_status.lower() in [...]`
(service.py line 535): a non-empty status whose lowercasing is in the
terminal list. -/
def is_expired_status (status : Option (List Nat)) : Bool :=
  match status with
  | none => false
  | some s => decide (s ≠ []) && decide ((s.map pyLower) ∈ expired_session_statuses)

/-- The error message built at service.py line 536. -/
def session_expired_message (s : List Nat) : List Nat :=
  str2nat "Bank session is " ++ s ++ str2nat ". Please re-authorize the connection."

/-- Step 2 of the run (service.py lines 496-517): when the stored expiry
hint has passed and a refresh token exists, refresh and persist the new
credential and expiry; with no refresh token, proceed (the hint is not
authoritative for session-based providers).  The credential cipher is
modelled as the identity. -/
def token_refresh_step (env : SyncEnv) (conn : BankConnection) :
    Except PyExc BankConnection :=
  match conn.token_expires_at with
  | none => Except.ok conn
  | some t =>
    if t < env.today then
      match conn.refresh_token with
      | none => Except.ok conn
      | some _ =>
        match env.refresh_result with
        | Except.error e => Except.error e
        | Except.ok (new_tok, expires_in) =>
          Except.ok { conn with
            access_token := some new_tok
            token_expires_at := some (env.today + expires_in) }
    else Except.ok conn

/-- The account-uid reconciliation on a healthy session (service.py lines
545-572): when the session reports accounts, the connection's bank account
exists and the connection stores an IBAN/BBAN anchor, adopt the uid of the
first reported account with that IBAN when it differs. -/
def reconcile_connection_uid (bank_accounts : List BankAccount)
    (info : SessionInfo) (conn : BankConnection) : BankConnection :=
  if info.accounts = [] then conn
  else
    match bank_accounts.find? (fun ba => decide (ba.id = conn.bank_account_id)) with
    | none => conn
    | some _ =>
      match conn.external_account_iban with
      | none => conn
      | some target =>
        match info.accounts.find? (fun acc => decide (acc.iban = some target)) with
        | none => conn
        | some acc =>
          match acc.uid with
          | none => conn
          | some uid =>
            if uid ≠ [] ∧ uid ≠ conn.external_account_id then
              { conn with external_account_id := uid }
            else conn

/-- Step 3 of the run (service.py lines 519-580): when the adapter has a
session-status capability, check it; a failing check is only a warning,
but a terminal status marks the connection ERROR, the run FAILED, and
raises `SessionExpiredError`; a healthy session reconciles the volatile
account uid. -/
def session_check_step (env : SyncEnv) (bank_accounts : List BankAccount)
    (conn : BankConnection) (log : BankSyncLog) :
    Except (PyExc × BankConnection × BankSyncLog) BankConnection :=
  if env.has_check_session then
    match env.session_result with
    | Except.error _ => Except.ok conn
    | Except.ok info =>
      match info.status with
      | none => Except.ok (reconcile_connection_uid bank_accounts info conn)
      | some s =>
        if s ≠ [] ∧ (s.map pyLower) ∈ expired_session_statuses then
          Except.error (PyExc.sessionExpired (session_expired_message s),
            { conn with
              status := BankConnectionStatus.ERROR
              connection_error := some (session_expired_message s) },
            { log with
              sync_status := BankSyncStatus.FAILED
              error_message := some (session_expired_message s) })
        else Except.ok (reconcile_connection_uid bank_accounts info conn)
  else Except.ok conn

/-- Step 5's sign fix (service.py lines 632-643): when the connection's GL
account is a LIABILITY, invert every fetched amount. -/
def invert_for_liability (bank_accounts : List BankAccount)
    (conn : BankConnection) (raw : List RawTx) : List RawTx :=
  match bank_accounts.find? (fun ba => decide (ba.id = conn.bank_account_id)) with
  | none => raw
  | some ba =>
    if ba.account_type = AccountType.LIABILITY then
      raw.map fun t => { t with amount := -t.amount }
    else raw

/-- The running state of the per-transaction batch loop. -/
structure BatchState where
  db : SyncDb
  imported : Nat
  duplicates : Nat
  errors : List (List Nat)
deriving DecidableEq, Repr

/-- The `BankTransaction` row stored for one fetched transaction
(service.py lines 683-699), with its final import status and link. -/
def mk_bank_tx (btx_id : Int) (conn_id : Int) (raw : RawTx) (d : Int)
    (dedup_hash : List Nat) (ingest : IngestStatus) (link : Option Int) :
    BankTransaction :=
  { id := btx_id
    bank_connection_id := conn_id
    external_transaction_id := raw.external_id
    transaction_date := d
    booking_date := raw.booking_date
    value_date := raw.value_date
    amount := raw.amount
    currency := raw.currency
    description := raw.description
    reference := raw.reference
    merchant_name := raw.merchant_name
    dedup_hash := dedup_hash
    raw_data := raw.raw_data
    ingest_status := ingest
    linked_transaction_id := link }

/-- Step 6 for one fetched transaction (service.py lines 653-733): skip
(recording an error) when no date is present; count as duplicate when
already fetched; otherwise persist the raw row and either link it to an
existing duplicate ledger transaction or import a new draft.  A missing
bank-account row would raise inside the loop; the per-transaction handler
records it as an error and keeps the PENDING row, as the source does. -/
def process_raw_transaction (conn : BankConnection)
    (bank_accounts : List BankAccount) (st : BatchState) (raw : RawTx) :
    BatchState :=
  match raw.date with
  | none =>
    { st with errors := st.errors ++
        [str2nat "Transaction " ++ raw.external_id ++
          str2nat ": No date available"] }
  | some d =>
    match check_duplicate_bank_transaction st.db.bank_transactions conn.id
        raw.external_id (generate_hash d raw.amount raw.description raw.reference) with
    | some _ => { st with duplicates := st.duplicates + 1 }
    | none =>
      match bank_accounts.find? (fun ba => decide (ba.id = conn.bank_account_id)) with
      | none =>
        { st with
          db := { st.db with
            bank_transactions := st.db.bank_transactions ++
              [mk_bank_tx st.db.next_bank_transaction_id conn.id raw d
                (generate_hash d raw.amount raw.description raw.reference)
                IngestStatus.PENDING none]
            next_bank_transaction_id := st.db.next_bank_transaction_id + 1 }
          errors := st.errors ++
            [str2nat "Transaction " ++ raw.external_id ++
              str2nat ": bank account not found"] }
      | some ba =>
        match find_duplicate_transaction st.db.transactions conn.ledger_id
            ba.account_id
            (generate_hash d raw.amount raw.description raw.reference) d
            raw.amount with
        | some etx =>
          { st with
            db := { st.db with
              bank_transactions := st.db.bank_transactions ++
                [mk_bank_tx st.db.next_bank_transaction_id conn.id raw d
                  (generate_hash d raw.amount raw.description raw.reference)
                  IngestStatus.DUPLICATE (some etx.id)]
              next_bank_transaction_id := st.db.next_bank_transaction_id + 1 }
            duplicates := st.duplicates + 1 }
        | none =>
          { st with
            db := { st.db with
              transactions := st.db.transactions ++
                [import_as_draft_transaction conn.ledger_id ba raw
                  st.db.next_transaction_id st.db.next_entry_id]
              bank_transactions := st.db.bank_transactions ++
                [mk_bank_tx st.db.next_bank_transaction_id conn.id raw d
                  (generate_hash d raw.amount raw.description raw.reference)
                  IngestStatus.IMPORTED (some st.db.next_transaction_id)]
              next_transaction_id := st.db.next_transaction_id + 1
              next_entry_id := st.db.next_entry_id + 1
              next_bank_transaction_id := st.db.next_bank_transaction_id + 1 }
            imported := st.imported + 1 }

/-- The whole batch loop of step 6. -/
def process_batch (conn : BankConnection) (bank_accounts : List BankAccount)
    (st : BatchState) (raws : List RawTx) : BatchState :=
  raws.foldl (process_raw_transaction conn bank_accounts) st

/-- The `BankSyncLog` row created at the start of the run (service.py
lines 476-484): status FAILED until proven otherwise. -/
def initial_sync_log (env : SyncEnv) (conn : BankConnection) : BankSyncLog :=
  { bank_connection_id := conn.id
    sync_status := BankSyncStatus.FAILED
    started_at := env.today
    completed_at := none
    sync_from_date := none
    sync_to_date := none
    transactions_fetched := none
    transactions_imported := none
    transactions_duplicate := none
    error_message := none }

/-- The body of `sync_transactions` — everything inside the big `try`
(service.py lines 486-762).  Returns the run outcome (success result or
the raised exception) together with the connection, sync-log and database
state at that moment. -/
def sync_transactions_body (env : SyncEnv) (bank_accounts : List BankAccount)
    (conn : BankConnection) (log : BankSyncLog) (db : SyncDb)
    (from0 to0 : Option Int) :
    Except PyExc SyncResult × BankConnection × BankSyncLog × SyncDb :=
  if env.provider_exists then
    match token_refresh_step env conn with
    | Except.error e => (Except.error e, conn, log, db)
    | Except.ok conn1 =>
      match session_check_step env bank_accounts conn1 log with
      | Except.error (e, conn2, log2) => (Except.error e, conn2, log2, db)
      | Except.ok conn2 =>
        match env.fetch_result with
        | Except.error e =>
          (Except.error e, conn2,
            { log with
              sync_from_date := compute_from_date from0
                conn2.last_successful_sync_at conn2.initial_sync_from_date
                env.today
              sync_to_date := some (compute_to_date to0 env.today) }, db)
        | Except.ok raw0 =>
          match process_batch conn2 bank_accounts
              ⟨db, 0, 0, []⟩ (invert_for_liability bank_accounts conn2 raw0) with
          | bstate =>
            match env.commit_exc with
            | some msg =>
              (Except.error (PyExc.generic msg), conn2,
                { log with
                  sync_from_date := compute_from_date from0
                    conn2.last_successful_sync_at conn2.initial_sync_from_date
                    env.today
                  sync_to_date := some (compute_to_date to0 env.today)
                  transactions_fetched := some
                    (invert_for_liability bank_accounts conn2 raw0).length },
                bstate.db)
            | none =>
              (Except.ok
                  ⟨str2nat "success",
                    (invert_for_liability bank_accounts conn2 raw0).length,
                    bstate.imported, bstate.duplicates, bstate.errors⟩,
                { conn2 with
                  last_sync_at := some env.today
                  last_successful_sync_at := some env.today
                  status := BankConnectionStatus.ACTIVE
                  connection_error := none },
                { log with
                  sync_from_date := compute_from_date from0
                    conn2.last_successful_sync_at conn2.initial_sync_from_date
                    env.today
                  sync_to_date := some (compute_to_date to0 env.today)
                  transactions_fetched := some
                    (invert_for_liability bank_accounts conn2 raw0).length
                  sync_status := BankSyncStatus.SUCCESS
                  transactions_imported := some bstate.imported
                  transactions_duplicate := some bstate.duplicates
                  completed_at := some env.today },
                bstate.db)
  else
    (Except.error (PyExc.generic (str2nat "Bank provider not found or inactive")),
      conn, log, db)

/-- The failure result dict built by the top-level handler (service.py
lines 777-783). -/
def failed_sync_result (e : PyExc) : SyncResult :=
  { status := str2nat "failed"
    transactions_fetched := 0
    imported := 0
    duplicates := 0
    errors := [PyExc.msg e] }

/-- `BankIntegrationService.sync_transactions` (service.py lines 430-783):
create the sync log, run the body, and on any raised exception finalize
the log as FAILED, put the connection in ERROR with the error message, and
return the failure dict instead of propagating. -/
def sync_transactions (env : SyncEnv) (bank_accounts : List BankAccount)
    (conn : BankConnection) (db : SyncDb) (from0 to0 : Option Int) :
    SyncResult × BankConnection × BankSyncLog × SyncDb :=
  match sync_transactions_body env bank_accounts conn
      (initial_sync_log env conn) db from0 to0 with
  | (Except.ok r, conn', log', db') => (r, conn', log', db')
  | (Except.error e, conn', log', db') =>
    (failed_sync_result e,
      { conn' with
        last_sync_at := some env.today
        status := BankConnectionStatus.ERROR
        connection_error := some (PyExc.msg e) },
      { log' with
        sync_status := BankSyncStatus.FAILED
        error_message := some (PyExc.msg e)
        completed_at := some env.today },
      db')

/-- The run reaches the session check without the token-refresh step
raising: the expiry hint has not passed, or no refresh token exists, or
the refresh call succeeds. -/
def refresh_path_ok (env : SyncEnv) (conn : BankConnection) : Bool :=
  match conn.token_expires_at with
  | none => true
  | some t =>
    if t < env.today then
      match conn.refresh_token with
      | none => true
      | some _ =>
        match env.refresh_result with
        | Except.error _ => false
        | Except.ok _ => true
    else true

/-- A passing refresh path makes the refresh step succeed. -/
theorem token_refresh_step_ok (env : SyncEnv) (conn : BankConnection)
    (h : refresh_path_ok env conn = true) :
    ∃ c1, token_refresh_step env conn = Except.ok c1 := by
  unfold refresh_path_ok at h
  unfold token_refresh_step
  rcases htok : conn.token_expires_at with _ | t
  · exact ⟨conn, rfl⟩
  · rw [htok] at h
    dsimp only at h ⊢
    by_cases hlt : t < env.today
    · rw [if_pos hlt] at h ⊢
      rcases href : conn.refresh_token with _ | rt
      · exact ⟨conn, rfl⟩
      · rw [href] at h
        dsimp only at h ⊢
        rcases hres : env.refresh_result with e | ⟨tok, expin⟩
        · rw [hres] at h
          cases h
        · exact ⟨_, rfl⟩
    · rw [if_neg hlt] at h ⊢
      exact ⟨conn, rfl⟩

/-- C5: `sync_transactions` never propagates an exception: it always
returns a result, and whenever the body raised anywhere (provider lookup,
token refresh, session check, fetch, finalization commit), the returned
result is the failure dict carrying the exception message, the connection
is left in ERROR with that message, and the sync log is finalized FAILED
with that message. -/
theorem sync_transactions_no_propagation_spec :
    ∀ env bank_accounts conn db from0 to0,
      ∃ r conn' log' db',
        sync_transactions env bank_accounts conn db from0 to0
          = (r, conn', log', db') ∧
        ((∃ rr, (sync_transactions_body env bank_accounts conn
            (initial_sync_log env conn) db from0 to0).1
              = Except.ok rr ∧ r = rr) ∨
         (∃ e, (sync_transactions_body env bank_accounts conn
            (initial_sync_log env conn) db from0 to0).1
              = Except.error e ∧
           r = failed_sync_result e ∧
           r.status = str2nat "failed" ∧
           r.errors = [PyExc.msg e] ∧
           conn'.status = BankConnectionStatus.ERROR ∧
           conn'.connection_error = some (PyExc.msg e) ∧
           log'.sync_status = BankSyncStatus.FAILED ∧
           log'.error_message = some (PyExc.msg e))) := by
  intro env ba conn db f0 t0
  rcases hbody : sync_transactions_body env ba conn (initial_sync_log env conn)
      db f0 t0 with ⟨res, c', l', d'⟩
  rcases res with e | r
  · refine ⟨failed_sync_result e,
      { c' with
        last_sync_at := some env.today
        status := BankConnectionStatus.ERROR
        connection_error := some (PyExc.msg e) },
      { l' with
        sync_status := BankSyncStatus.FAILED
        error_message := some (PyExc.msg e)
        completed_at := some env.today },
      d', ?_, Or.inr ⟨e, rfl, rfl, rfl, rfl, rfl, rfl, rfl, rfl⟩⟩
    unfold sync_transactions
    rw [hbody]
  · refine ⟨r, c', l', d', ?_, Or.inl ⟨r, rfl, rfl⟩⟩
    unfold sync_transactions
    rw [hbody]

/-- C10: whenever the body of a sync run raises, the returned result is
exactly `{status: failed, transactions_fetched: 0, imported: 0,
duplicates: 0, errors: [message]}` — the counts are zero regardless of how
much work was ingested before the failure — while the database state at
the moment of failure (including already-ingested rows) is kept. -/
theorem sync_failed_counts_spec :
    ∀ env bank_accounts conn db from0 to0 e conn0 log0 db0,
      sync_transactions_body env bank_accounts conn
        (initial_sync_log env conn) db from0 to0
        = (Except.error e, conn0, log0, db0) →
      (sync_transactions env bank_accounts conn db from0 to0).1
        = { status := str2nat "failed"
            transactions_fetched := 0
            imported := 0
            duplicates := 0
            errors := [PyExc.msg e] } ∧
      (sync_transactions env bank_accounts conn db from0 to0).2.2.2 = db0 := by
  intro env ba conn db f0 t0 e conn0 log0 db0 h
  unfold sync_transactions
  rw [h]
  exact ⟨rfl, rfl⟩

/-- C4: when the session-status check returns `expired`, `closed` or
`revoked` in any letter case (and the run reaches the check), the body
raises `SessionExpiredError` — not a generic failure — the sync log is
finalized FAILED with that error message, and the connection ends in
ERROR, never ACTIVE. -/
theorem sync_session_expired_spec :
    ∀ env bank_accounts conn db from0 to0 info s,
      env.provider_exists = true →
      refresh_path_ok env conn = true →
      env.has_check_session = true →
      env.session_result = Except.ok info →
      info.status = some s →
      (s.map pyLower = str2nat "expired" ∨ s.map pyLower = str2nat "closed" ∨
        s.map pyLower = str2nat "revoked") →
      ∃ conn' log' db',
        sync_transactions env bank_accounts conn db from0 to0
          = (failed_sync_result
              (PyExc.sessionExpired (session_expired_message s)),
             conn', log', db') ∧
        (sync_transactions_body env bank_accounts conn
            (initial_sync_log env conn) db from0 to0).1
          = Except.error (PyExc.sessionExpired (session_expired_message s)) ∧
        conn'.status = BankConnectionStatus.ERROR ∧
        conn'.status ≠ BankConnectionStatus.ACTIVE ∧
        log'.sync_status = BankSyncStatus.FAILED ∧
        log'.error_message = some (session_expired_message s) := by
  intro env ba conn db f0 t0 info s hprov href hhas hres hst hmem
  have hsne : s ≠ [] := by
    intro h0
    subst h0
    rcases hmem with h | h | h <;> simp [str2nat] at h
  have hmem' : (s.map pyLower) ∈ expired_session_statuses := by
    rcases hmem with h | h | h <;> rw [h] <;> simp [expired_session_statuses]
  obtain ⟨c1, hc1⟩ := token_refresh_step_ok env conn href
  have hsession : session_check_step env ba c1 (initial_sync_log env conn)
      = Except.error (PyExc.sessionExpired (session_expired_message s),
          { c1 with
            status := BankConnectionStatus.ERROR
            connection_error := some (session_expired_message s) },
          { initial_sync_log env conn with
            sync_status := BankSyncStatus.FAILED
            error_message := some (session_expired_message s) }) := by
    unfold session_check_step
    rw [if_pos hhas, hres]
    dsimp only
    rw [hst]
    dsimp only
    rw [if_pos ⟨hsne, hmem'⟩]
  have hbody1 : sync_transactions_body env ba conn (initial_sync_log env conn)
      db f0 t0
      = (Except.error (PyExc.sessionExpired (session_expired_message s)),
         { c1 with
           status := BankConnectionStatus.ERROR
           connection_error := some (session_expired_message s) },
         { initial_sync_log env conn with
           sync_status := BankSyncStatus.FAILED
           error_message := some (session_expired_message s) },
         db) := by
    unfold sync_transactions_body
    rw [if_pos hprov, hc1]
    dsimp only
    rw [hsession]
  refine ⟨{ c1 with
      last_sync_at := some env.today
      status := BankConnectionStatus.ERROR
      connection_error := some (session_expired_message s) },
    { initial_sync_log env conn with
      sync_status := BankSyncStatus.FAILED
      error_message := some (session_expired_message s)
      completed_at := some env.today },
    db, ?_, ?_, rfl, fun hh => BankConnectionStatus.noConfusion hh, rfl, rfl⟩
  · unfold sync_transactions
    rw [hbody1]
    rfl
  · rw [hbody1]

/-- Concrete instantiation of the session-expiry theorem: the provider
reports status "EXPIRED" (upper case) and the run fails with
SessionExpiredError, the log FAILED and the connection in ERROR. -/
theorem sync_session_expired_spec_witness :
    ∃ conn' log' db',
      sync_transactions
          ⟨true, true, Except.ok ⟨some (str2nat "EXPIRED"), []⟩,
            Except.ok ([], 0), Except.ok [], none, 100⟩
          [⟨4, 1, 5, AccountType.ASSET⟩]
          ⟨7, 1, 4, 2, none, [], none, none, some [], none, none,
            BankConnectionStatus.ACTIVE, none, none, none, none⟩
          ⟨[], [], 50, 60, 70⟩ none none
        = (failed_sync_result
            (PyExc.sessionExpired (session_expired_message (str2nat "EXPIRED"))),
           conn', log', db') ∧
      (sync_transactions_body
          ⟨true, true, Except.ok ⟨some (str2nat "EXPIRED"), []⟩,
            Except.ok ([], 0), Except.ok [], none, 100⟩
          [⟨4, 1, 5, AccountType.ASSET⟩]
          ⟨7, 1, 4, 2, none, [], none, none, some [], none, none,
            BankConnectionStatus.ACTIVE, none, none, none, none⟩
          (initial_sync_log
            ⟨true, true, Except.ok ⟨some (str2nat "EXPIRED"), []⟩,
              Except.ok ([], 0), Except.ok [], none, 100⟩
            ⟨7, 1, 4, 2, none, [], none, none, some [], none, none,
              BankConnectionStatus.ACTIVE, none, none, none, none⟩)
          ⟨[], [], 50, 60, 70⟩ none none).1
        = Except.error
            (PyExc.sessionExpired (session_expired_message (str2nat "EXPIRED"))) ∧
      conn'.status = BankConnectionStatus.ERROR ∧
      conn'.status ≠ BankConnectionStatus.ACTIVE ∧
      log'.sync_status = BankSyncStatus.FAILED ∧
      log'.error_message = some (session_expired_message (str2nat "EXPIRED")) :=
  sync_session_expired_spec
    ⟨true, true, Except.ok ⟨some (str2nat "EXPIRED"), []⟩,
      Except.ok ([], 0), Except.ok [], none, 100⟩
    [⟨4, 1, 5, AccountType.ASSET⟩]
    ⟨7, 1, 4, 2, none, [], none, none, some [], none, none,
      BankConnectionStatus.ACTIVE, none, none, none, none⟩
    ⟨[], [], 50, 60, 70⟩ none none
    ⟨some (str2nat "EXPIRED"), []⟩ (str2nat "EXPIRED")
    rfl (by decide) rfl rfl rfl (Or.inl (by decide))

/-- Concrete instantiation of the failed-counts theorem: one transaction
is fetched and ingested, then the final commit raises; the returned counts
are all zero while the ingested row remains in the database state. -/
theorem sync_failed_counts_spec_witness :
    sync_transactions_body
        ⟨true, false, Except.ok ⟨none, []⟩, Except.ok ([], 0),
          Except.ok [⟨str2nat "T1", some 10, none, none, 15000, str2nat "NOK",
            str2nat "Pay", none, none, []⟩], some (str2nat "db down"), 100⟩
        [⟨4, 1, 5, AccountType.ASSET⟩]
        ⟨7, 1, 4, 2, none, [], none, none, some [], none, none,
          BankConnectionStatus.ACTIVE, none, none, none, none⟩
        (initial_sync_log
          ⟨true, false, Except.ok ⟨none, []⟩, Except.ok ([], 0),
            Except.ok [⟨str2nat "T1", some 10, none, none, 15000, str2nat "NOK",
              str2nat "Pay", none, none, []⟩], some (str2nat "db down"), 100⟩
          ⟨7, 1, 4, 2, none, [], none, none, some [], none, none,
            BankConnectionStatus.ACTIVE, none, none, none, none⟩)
        ⟨[], [], 50, 60, 70⟩ none none
      = (Except.error (PyExc.generic (str2nat "db down")),
         ⟨7, 1, 4, 2, none, [], none, none, some [], none, none,
           BankConnectionStatus.ACTIVE, none, none, none, none⟩,
         ⟨7, BankSyncStatus.FAILED, 100, none, none, some 100, some 1, none,
           none, none⟩,
         ⟨[import_as_draft_transaction 1 ⟨4, 1, 5, AccountType.ASSET⟩
             ⟨str2nat "T1", some 10, none, none, 15000, str2nat "NOK",
               str2nat "Pay", none, none, []⟩ 50 60],
          [mk_bank_tx 70 7
             ⟨str2nat "T1", some 10, none, none, 15000, str2nat "NOK",
               str2nat "Pay", none, none, []⟩ 10
             (generate_hash 10 15000 (str2nat "Pay") none)
             IngestStatus.IMPORTED (some 50)],
          51, 61, 71⟩) ∧
    (sync_transactions
        ⟨true, false, Except.ok ⟨none, []⟩, Except.ok ([], 0),
          Except.ok [⟨str2nat "T1", some 10, none, none, 15000, str2nat "NOK",
            str2nat "Pay", none, none, []⟩], some (str2nat "db down"), 100⟩
        [⟨4, 1, 5, AccountType.ASSET⟩]
        ⟨7, 1, 4, 2, none, [], none, none, some [], none, none,
          BankConnectionStatus.ACTIVE, none, none, none, none⟩
        ⟨[], [], 50, 60, 70⟩ none none).1
      = ⟨str2nat "failed", 0, 0, 0, [str2nat "db down"]⟩ ∧
    (sync_transactions
        ⟨true, false, Except.ok ⟨none, []⟩, Except.ok ([], 0),
          Except.ok [⟨str2nat "T1", some 10, none, none, 15000, str2nat "NOK",
            str2nat "Pay", none, none, []⟩], some (str2nat "db down"), 100⟩
        [⟨4, 1, 5, AccountType.ASSET⟩]
        ⟨7, 1, 4, 2, none, [], none, none, some [], none, none,
          BankConnectionStatus.ACTIVE, none, none, none, none⟩
        ⟨[], [], 50, 60, 70⟩ none none).2.2.2.bank_transactions.length = 1 := by
  have hb : sync_transactions_body
      ⟨true, false, Except.ok ⟨none, []⟩, Except.ok ([], 0),
        Except.ok [⟨str2nat "T1", some 10, none, none, 15000, str2nat "NOK",
          str2nat "Pay", none, none, []⟩], some (str2nat "db down"), 100⟩
      [⟨4, 1, 5, AccountType.ASSET⟩]
      ⟨7, 1, 4, 2, none, [], none, none, some [], none, none,
        BankConnectionStatus.ACTIVE, none, none, none, none⟩
      (initial_sync_log
        ⟨true, false, Except.ok ⟨none, []⟩, Except.ok ([], 0),
          Except.ok [⟨str2nat "T1", some 10, none, none, 15000, str2nat "NOK",
            str2nat "Pay", none, none, []⟩], some (str2nat "db down"), 100⟩
        ⟨7, 1, 4, 2, none, [], none, none, some [], none, none,
          BankConnectionStatus.ACTIVE, none, none, none, none⟩)
      ⟨[], [], 50, 60, 70⟩ none none
    = (Except.error (PyExc.generic (str2nat "db down")),
       ⟨7, 1, 4, 2, none, [], none, none, some [], none, none,
         BankConnectionStatus.ACTIVE, none, none, none, none⟩,
       ⟨7, BankSyncStatus.FAILED, 100, none, none, some 100, some 1, none,
         none, none⟩,
       ⟨[import_as_draft_transaction 1 ⟨4, 1, 5, AccountType.ASSET⟩
           ⟨str2nat "T1", some 10, none, none, 15000, str2nat "NOK",
             str2nat "Pay", none, none, []⟩ 50 60],
        [mk_bank_tx 70 7
           ⟨str2nat "T1", some 10, none, none, 15000, str2nat "NOK",
             str2nat "Pay", none, none, []⟩ 10
           (generate_hash 10 15000 (str2nat "Pay") none)
           IngestStatus.IMPORTED (some 50)],
        51, 61, 71⟩) := by rfl
  have h := sync_failed_counts_spec
    ⟨true, false, Except.ok ⟨none, []⟩, Except.ok ([], 0),
      Except.ok [⟨str2nat "T1", some 10, none, none, 15000, str2nat "NOK",
        str2nat "Pay", none, none, []⟩], some (str2nat "db down"), 100⟩
    [⟨4, 1, 5, AccountType.ASSET⟩]
    ⟨7, 1, 4, 2, none, [], none, none, some [], none, none,
      BankConnectionStatus.ACTIVE, none, none, none, none⟩
    ⟨[], [], 50, 60, 70⟩ none none
    (PyExc.generic (str2nat "db down")) _ _ _ hb
  exact ⟨hb, h.1, by rw [h.2]; rfl⟩
